import Mathlib

/-!
Verification of the paper-to-podcast generation pipeline
(routers/generate.py, routers/podcast.py, services/script_generator.py,
services/tts_service.py, services/audio_mixer.py, config.py,
models/schemas.py).

The Python code is shallowly embedded: Pydantic models become structures,
Python ints become `Int`/`Nat`, float time arithmetic is carried out
exactly over `ℚ`, fallible code returns `Except`, the in-memory job store
entry for a single job id is threaded explicitly, and calls to external
providers (Gemini, ElevenLabs) are parameters describing the providers'
responses.  Python string operations used by the code (`str.split()`,
`str.strip()`, `str.upper()`) are modelled by executable functions on the
character list of a `String`.
-/

/-! ## Python string primitives -/

/-- Model of Python `len(s.split())`: the number of maximal runs of
non-whitespace characters.  The accumulator records whether we are inside
a word. -/
def wordCountAux : List Char → Bool → Nat
  | [], _ => 0
  | c :: cs, inWord =>
      if c.isWhitespace then wordCountAux cs false
      else (if inWord then 0 else 1) + wordCountAux cs true

/-- Number of words of a Python string as counted by `len(s.split())`. -/
def wordCount (s : String) : Nat := wordCountAux s.data false

/-- Model of Python `s.strip()`: drop whitespace from both ends. -/
def trimChars (cs : List Char) : List Char :=
  ((cs.dropWhile Char.isWhitespace).reverse.dropWhile Char.isWhitespace).reverse

/-- Python `s.strip()` on strings. -/
def pyStrip (s : String) : String := ⟨trimChars s.data⟩

/-- Python `s.upper()` (the hosts' role strings are ASCII). -/
def pyUpper (s : String) : String := ⟨s.data.map Char.toUpper⟩

/-- Python `int(x)` on a rational: truncation toward zero. -/
def pyInt (q : ℚ) : ℤ := if 0 ≤ q then ⌊q⌋ else -⌊-q⌋

/-! ## Data model (models/schemas.py) -/

/-- models/schemas.py `JobStatus`. -/
inductive JobStatus where
  | pending
  | parsing
  | scripting
  | synthesising
  | mixing
  | done
  | error
deriving DecidableEq, Repr

/-- models/schemas.py `ParsedSection`. -/
structure ParsedSection where
  title : String
  body : String
  page_start : Int
  page_end : Int
  has_tables : Bool := false
  has_equations : Bool := false
deriving Repr

/-- models/schemas.py `ParsedDocument`; the metadata dict is a key/value
association list. -/
structure ParsedDocument where
  job_id : String
  filename : String
  total_pages : Int
  word_count : Int
  sections : List ParsedSection
  raw_text : String
  metadata : List (String × String)
deriving Repr

/-- models/schemas.py `DialogueLine`. -/
structure DialogueLine where
  host : String
  text : String
  chapter_id : Option Int := none
deriving DecidableEq, Repr

/-- models/schemas.py `Chapter`. -/
structure Chapter where
  id : Int
  title : String
  estimated_duration_sec : Int
  line_start : Int
  line_end : Int
deriving DecidableEq, Repr

/-- models/schemas.py `QuizQuestion`. -/
structure QuizQuestion where
  question : String
  options : List String
  correct_index : Int
  explanation : String
deriving DecidableEq, Repr

/-- models/schemas.py `PodcastScript`. -/
structure PodcastScript where
  job_id : String
  paper_title : String
  paper_authors : String
  total_estimated_duration_sec : Int
  chapters : List Chapter
  dialogue : List DialogueLine
  study_guide : String
  quiz_questions : List QuizQuestion
deriving DecidableEq, Repr

/-- models/schemas.py `CaptionCue`; the float second values are carried
exactly as rationals. -/
structure CaptionCue where
  start_sec : ℚ
  end_sec : ℚ
  host : String
  text : String
deriving DecidableEq, Repr

/-- models/schemas.py `TimestampedChapter`. -/
structure TimestampedChapter where
  id : Int
  title : String
  start_sec : ℚ
  end_sec : ℚ
deriving DecidableEq, Repr

/-- models/schemas.py `PodcastAudio`. -/
structure PodcastAudio where
  job_id : String
  audio_url : String
  vtt_url : String
  duration_sec : ℚ
  chapters : List TimestampedChapter
deriving DecidableEq, Repr

/-- models/schemas.py `QuizResult`; each feedback entry is a key/value
dict, modelled as an association list. -/
structure QuizResult where
  score : Int
  total : Int
  points_earned : Int
  feedback : List (List (String × String))
deriving DecidableEq, Repr

/-- models/schemas.py `JobStatusResponse` — also the value type of the
in-memory job store `_JOB_STORE` in routers/generate.py. -/
structure JobStatusResponse where
  job_id : String
  status : JobStatus
  progress_pct : Int := 0
  message : String := ""
  result : Option PodcastAudio := none
  script : Option PodcastScript := none
deriving Repr

/-! ## Script generation (services/script_generator.py) -/

/-- The chapter dicts flowing from `_generate_chapters` into
`_build_chapters`, projected to the fields `_build_chapters` reads:
`ch["id"]` (always present after renumbering / fallback) and
`ch.get("title", ...)`. -/
structure ChapterData where
  id : Int
  title : Option String := none
deriving DecidableEq, Repr

/-- Python `next((j for j, l in enumerate(xs) if p l), d)`: index of the
first element satisfying `p`, or the default `d` when there is none.
`List.findIdx` returns `xs.length` exactly when no element matches. -/
def firstIdxOr (p : α → Bool) (xs : List α) (d : Nat) : Nat :=
  let k := xs.findIdx p
  if k < xs.length then k else d

/-- Loop body of services/script_generator.py `_build_chapters` for the
chapter at position `i`: `int(word_count/2.5)` is `word_count * 2 / 5` on
naturals (truncating division of a nonnegative value), and
`range(start_idx, min(end_idx+1, len(lines)))` is the index window
`[start_idx, stop)` of `lines`. -/
def buildChapter (chapters_data : List ChapterData) (lines : List DialogueLine)
    (i : Nat) (ch : ChapterData) : Chapter :=
  let cid := ch.id
  let start_idx : Nat := firstIdxOr (fun l => l.chapter_id == some cid) lines 0
  let next_id : Option Int := (chapters_data.get? (i + 1)).map (fun c => c.id)
  let end_idx : Int :=
    match next_id with
    | some nid => (firstIdxOr (fun l => l.chapter_id == some nid) lines lines.length : Int) - 1
    | none => (lines.length : Int) - 1
  let stop : Nat := (min (end_idx + 1) (lines.length : Int)).toNat
  let word_count : Nat := (((lines.take stop).drop start_idx).map (fun l => wordCount l.text)).sum
  { id := cid
    title := ch.title.getD ("Chapter " ++ toString cid)
    estimated_duration_sec := (word_count * 2 / 5 : Nat)
    line_start := start_idx
    line_end := max end_idx (start_idx : Int) }

/-- services/script_generator.py `_build_chapters`. -/
def build_chapters (chapters_data : List ChapterData) (lines : List DialogueLine) :
    List Chapter :=
  chapters_data.enum.map fun ic => buildChapter chapters_data lines ic.1 ic.2

/-- Consecutive chapters are contiguous: each chapter's `line_start` is
the predecessor's `line_end + 1`. -/
def chaptersContiguous : List Chapter → Bool
  | [] => true
  | [_] => true
  | a :: b :: rest => (b.line_start == a.line_end + 1) && chaptersContiguous (b :: rest)

/-- Number of dialogue lines in the chapter block of index `i`:
`line_start` of a chapter produced by grouped dialogue. -/
def groupOffset (groups : List (List DialogueLine)) (i : Nat) : Nat :=
  ((groups.take i).map List.length).sum

/-- Concrete chapter metadata for two chapters, as renumbered by
`_generate_chapters` (ids 1 and 2). -/
def chaptersDataEx : List ChapterData :=
  [{ id := 1, title := some "Introduction" }, { id := 2, title := some "Core Concepts" }]

/-- A dialogue sequence producible by `_generate_dialogue` in which the
provider returned two valid lines for chapter 1 and no valid line for
chapter 2 (malformed entries are silently dropped there). -/
def linesEx : List DialogueLine :=
  [{ host := "A", text := "Welcome to the show", chapter_id := some 1 },
   { host := "B", text := "Glad to be here", chapter_id := some 1 }]

/-- Dialogue blocks for the C1 witness: one line for each of the two
chapters of `chaptersDataEx`. -/
def groupsEx : List (List DialogueLine) :=
  [[{ host := "A", text := "Welcome to the show", chapter_id := some 1 }],
   [{ host := "B", text := "Here is the key idea", chapter_id := some 2 }]]

/-! ## C2: `_ask` retry/backoff (services/script_generator.py) -/

/-- Outcome of one `client.aio.models.generate_content` call inside
`_ask`: a successful response with its text, an exception whose string
carries a rate-limit indicator ("429" / "RESOURCE_EXHAUSTED"), or any
other exception with its description. -/
inductive CallOutcome where
  | success (text : String)
  | rateLimited
  | otherError (msg : String)
deriving DecidableEq, Repr

/-- The two distinct failures `_ask` can escalate (both are RuntimeError
in the source, distinguished by their messages). -/
inductive AskError where
  | generationFailed (cause : String)
  | rateLimitExhausted
deriving DecidableEq, Repr

/-- The exact RuntimeError messages raised by `_ask`. -/
def askErrorMessage : AskError → String
  | .generationFailed cause => "Gemini generation failed: " ++ cause
  | .rateLimitExhausted =>
      "Gemini rate limit exceeded after all retries. Please wait 2 minutes and try again."

/-- The retry loop of `_ask`: `outcomes` lists the provider call results
for the remaining attempts, `attempt` is the 0-based loop counter.
Returns the result together with the list of `asyncio.sleep` waits (in
seconds) performed, in order.  On success the response text is stripped
(`response.text.strip()`); a rate-limit outcome sleeps
`60 * (attempt + 1)` seconds and continues; any other exception raises
immediately; falling off the loop raises the rate-limit-exhausted
RuntimeError. -/
def askLoop (outcomes : List CallOutcome) (attempt : Nat) :
    Except AskError String × List Nat :=
  match outcomes with
  | [] => (.error .rateLimitExhausted, [])
  | o :: rest =>
    match o with
    | .success t => (.ok (pyStrip t), [])
    | .otherError m => (.error (.generationFailed m), [])
    | .rateLimited =>
        let r := askLoop rest (attempt + 1)
        (r.1, 60 * (attempt + 1) :: r.2)

/-- services/script_generator.py `_ask` with the default `retries = 4`:
`outcomes` describes the provider's behavior on the successive attempts
(`outcomes.length = 4` models the full default attempt budget). -/
def ask (outcomes : List CallOutcome) : Except AskError String × List Nat :=
  askLoop outcomes 0

/-! ## Speech synthesis (services/tts_service.py, config.py) -/

/-- config.py `Settings`, restricted to the fields the synthesis stage and
orchestrator read; defaults as in the source. -/
structure Settings where
  elevenlabs_api_key : String := ""
  google_api_key : String := ""
  voice_id_male_a : String := "pNInz6obpgDQGcFmaJgB"
  voice_id_male_b : String := "VR6AewLTigWG4xSOukaG"
  voice_id_female_a : String := "EXAVITQu4vr4xnSDxMaL"
  voice_id_female_b : String := "MF3mGyEYCl7XYWbV9V6O"
deriving Repr

/-- config.py `Settings.voice_ids_for_pair`: the three fixed pairings,
with FM as the default for unrecognized pairs. -/
def Settings.voice_ids_for_pair (s : Settings) (pair : String) : String × String :=
  if pair = "MM" then (s.voice_id_male_a, s.voice_id_male_b)
  else if pair = "FM" then (s.voice_id_female_a, s.voice_id_male_b)
  else if pair = "FF" then (s.voice_id_female_a, s.voice_id_female_b)
  else (s.voice_id_female_a, s.voice_id_male_b)

/-- Python `random.randint(lo, hi)` (inclusive bounds) driven by an
arbitrary stream value `r`. -/
def randint (lo hi r : Nat) : Nat := lo + r % (hi + 1 - lo)

/-- The tone-accumulation loop of `_generate_synthetic_speech`, tracking
only the running length `time_ms` of the generated audio (each iteration
appends a tone of `duration` ms plus a gap of `gap` ms; the random
frequency and gain do not affect length).  `stream` supplies the raw
values for the successive `random` calls, `ctr` indexes into it. -/
def synthLoop (stream : Nat → Nat) (ctr total time_ms : Nat) : Nat :=
  if time_ms < total then
    let duration := randint 100 300 (stream (ctr + 1))
    let gap := randint 50 150 (stream (ctr + 2))
    synthLoop stream (ctr + 3) total (time_ms + duration + gap)
  else time_ms
termination_by total - time_ms
decreasing_by
  have : 100 ≤ randint 100 300 (stream (ctr + 1)) := Nat.le_add_right 100 _
  omega

/-- Length in ms of the audio produced by services/tts_service.py
`_generate_synthetic_speech` (fade in/out do not change length):
`total_duration = max(1000, word_count * 150)` and tones are appended
while `time_ms < total_duration`. -/
def generate_synthetic_speech_len (stream : Nat → Nat) (text : String) : Nat :=
  let word_count := wordCount text
  let total_duration := max 1000 (word_count * 150)
  synthLoop stream 0 total_duration 0

/-- services/tts_service.py `SynthesisedLine`; the `AudioSegment` payload
is modelled by its length in ms. -/
structure SynthesisedLine where
  host : String
  text : String
  audio : Nat
  duration_ms : Nat
  chapter_id : Option Int := none
  synthetic : Bool := false
deriving DecidableEq, Repr

/-- services/tts_service.py `_tts_with_retry`.  With no ElevenLabs key the
synthetic fallback is produced and flagged; with a key configured, the
HTTP call/backoff loop is abstracted by the `provider` oracle mapping
`(voice_id, text)` to either audio of some length or a `TTSFailure`
message — the claims under verification concern only the no-credential
branch and the arguments each call receives. -/
def tts_with_retry (s : Settings) (provider : String → String → Except String Nat)
    (stream : Nat → Nat) (voice_id text : String) : Except String (Nat × Bool) :=
  if s.elevenlabs_api_key = "" then
    .ok (generate_synthetic_speech_len stream text, true)
  else
    (provider voice_id text).map (fun a => (a, false))

/-- Loop body of services/tts_service.py `synthesise_script` over the
dialogue: normalizes each line (`str(line.host).upper()`,
`str(line.text).strip()`), skips empty lines, resolves the voice via
`voice_map.get(host, voice_a)`, and appends a `SynthesisedLine` whose
`duration_ms` is the length of the produced audio.  Besides the output
list it returns the trace of `(voice_id, text)` provider calls made, in
order.  `streams idx` supplies the randomness for the synthetic audio of
line `idx`. -/
def synthesiseGo (s : Settings) (provider : String → String → Except String Nat)
    (streams : Nat → Nat → Nat) (voice_a voice_b : String) :
    Nat → List DialogueLine → Except String (List SynthesisedLine × List (String × String))
  | _, [] => .ok ([], [])
  | idx, line :: rest => do
      let host := pyUpper line.host
      let text := pyStrip line.text
      let chapter_id := line.chapter_id
      if text = "" then
        synthesiseGo s provider streams voice_a voice_b (idx + 1) rest
      else
        let voice_id := if host = "A" then voice_a else if host = "B" then voice_b else voice_a
        match tts_with_retry s provider (streams idx) voice_id text with
        | .error m => .error m
        | .ok (audio, synthetic) => do
            let (ls, tr) ← synthesiseGo s provider streams voice_a voice_b (idx + 1) rest
            .ok ({ host := host, text := text, audio := audio, duration_ms := audio,
                   chapter_id := chapter_id, synthetic := synthetic } :: ls,
                 (voice_id, text) :: tr)

/-- services/tts_service.py `synthesise_script` on a typed
`PodcastScript` (the `hasattr`/dict duck-typing branch is the typed-object
one in this pipeline): returns `([], [])` on empty dialogue, otherwise
iterates the dialogue in order. -/
def synthesise_script (s : Settings) (provider : String → String → Except String Nat)
    (streams : Nat → Nat → Nat) (script : PodcastScript) (voice_pair : String) :
    Except String (List SynthesisedLine × List (String × String)) :=
  if script.dialogue = [] then .ok ([], [])
  else
    let vp := s.voice_ids_for_pair voice_pair
    synthesiseGo s provider streams vp.1 vp.2 0 script.dialogue

/-- Voice/text calls the synthesis coordinator should make according to
the specification: one call per dialogue line with non-empty stripped
text, using the pairing's first voice for role "A", the second for "B",
and the first as fallback for any other role (uppercased). -/
def expectedCalls (s : Settings) (voice_pair : String) (dialogue : List DialogueLine) :
    List (String × String) :=
  let vp := s.voice_ids_for_pair voice_pair
  (dialogue.filter (fun l => pyStrip l.text ≠ "")).map fun l =>
    (if pyUpper l.host = "A" then vp.1
     else if pyUpper l.host = "B" then vp.2
     else vp.1, pyStrip l.text)

/-! ## Audio mixing (services/audio_mixer.py) -/

/-- services/audio_mixer.py mixing constants. -/
def INTRO_MUSIC_MS : Nat := 4000

/-- The cue/speech-track fold of `mix_podcast` step 1: starting from a
speech track of length `acc` ms, append each synthesised line's audio and
a fixed 600 ms pause, recording one `CaptionCue` per line whose window is
`[start_ms, start_ms + duration_ms]` on the speech timeline (converted to
seconds as in the source).  Returns the final speech-track length and the
cue list. -/
def mixCuesFrom (acc : Nat) : List SynthesisedLine → Nat × List CaptionCue
  | [] => (acc, [])
  | sl :: rest =>
      let start_ms := acc
      let acc2 := acc + sl.audio + 600
      let r := mixCuesFrom acc2 rest
      (r.1,
        { start_sec := (start_ms : ℚ) / 1000
          end_sec := ((start_ms + sl.duration_ms : Nat) : ℚ) / 1000
          host := sl.host
          text := sl.text } :: r.2)

/-- Length of the track returned by `_load_music(duration_ms)`: both the
asset branch (looped then truncated to `music[:duration_ms]`) and the
missing-asset branch (`AudioSegment.silent(duration_ms)`) produce exactly
`duration_ms` ms. -/
def load_music_len (duration_ms : Nat) : Nat := duration_ms

/-- The timestamps written by `_write_vtt`: one `(start, end)` pair per
cue, each shifted by `offset_ms / 1000` seconds.  (The textual rendering
of each timestamp by `_format_time` and the cue numbering are elided; the
pair holds the exact second values being formatted.) -/
def write_vtt (cues : List CaptionCue) (offset_ms : Nat) : List (ℚ × ℚ) :=
  cues.map fun cue => (cue.start_sec + (offset_ms : ℚ) / 1000, cue.end_sec + (offset_ms : ℚ) / 1000)

/-- Result of services/audio_mixer.py `mix_podcast`, with audio segments
modelled by their lengths: the speech-track length, the caption cues, the
timestamps written to the VTT file, the final mixed-audio length, and the
returned timestamped chapters. -/
structure MixResult where
  speech_len : Nat
  cues : List CaptionCue
  vtt : List (ℚ × ℚ)
  final_len : Nat
  ts_chapters : List TimestampedChapter
deriving Repr

/-- services/audio_mixer.py `mix_podcast`: builds the speech track and
cues, loads music of length `len(speech_track) + 10000`, overlays speech
onto the ducked `music[:len(speech_track)]` slice (overlay keeps the base
segment's length), prepends the `music[:INTRO_MUSIC_MS]` intro (gain,
fades and `normalize` do not change lengths), writes cues shifted by the
intro duration, and returns the fixed single whole-file chapter. -/
def mix_podcast (synthesised : List SynthesisedLine) : MixResult :=
  let sp := mixCuesFrom 0 synthesised
  let speech_len := sp.1
  let cues := sp.2
  let music_len := load_music_len (speech_len + 10000)
  let main_body_len := min speech_len music_len
  let combined_len := main_body_len
  let intro_len := min INTRO_MUSIC_MS music_len
  let final_len := intro_len + combined_len
  { speech_len := speech_len
    cues := cues
    vtt := write_vtt cues INTRO_MUSIC_MS
    final_len := final_len
    ts_chapters :=
      [{ id := 0, title := "Introduction", start_sec := 0, end_sec := (final_len : ℚ) / 1000 }] }

/-- Offset (ms) of line `i` on the speech timeline: the accumulated audio
lengths and 600 ms pauses of all earlier lines. -/
def speechOffset (synthesised : List SynthesisedLine) (i : Nat) : Nat :=
  ((synthesised.take i).map (fun sl => sl.audio + 600)).sum

/-! ## Job orchestrator (routers/generate.py) -/

/-- The `update` closure of `_run_pipeline`: overwrite status, progress
and message of the job's registry entry.  (The source guards on
`job_id in _JOB_STORE`; entries are created before the pipeline starts
and never deleted, so for the entry being driven the guard always
holds.) -/
def updateEntry (e : JobStatusResponse) (status : JobStatus) (pct : Int) (msg : String) :
    JobStatusResponse :=
  { e with status := status, progress_pct := pct, message := msg }

/-- Behavior of the environment for one `_run_pipeline` run: the outcome
of `parse_pdf`, the configured Google key, the outcome of
`generate_script`, the outcome of `synthesise_script`, and the outcome of
the file-system side of mixing/export (the arithmetic of `mix_podcast`
itself is the `mix_podcast` model).  An `Except.error` value is the
description `str(e)` of the exception the stage raised. -/
structure PipelineEnv where
  parseResult : Except String ParsedDocument
  google_api_key : String
  scriptResult : Except String PodcastScript
  synthResult : Except String (List SynthesisedLine)
  mixExport : Except String Unit

/-- Python `round(x, 2)` (banker's rounding at half) applied to an exact
rational. -/
def pyRound2 (q : ℚ) : ℚ :=
  let z := q * 100
  let f := z - (⌊z⌋ : ℚ)
  (if f < 1 / 2 then (⌊z⌋ : ℚ)
   else if 1 / 2 < f then (⌊z⌋ : ℚ) + 1
   else if ⌊z⌋ % 2 = 0 then (⌊z⌋ : ℚ) else (⌊z⌋ : ℚ) + 1) / 100

/-- Chapter rewriting on success in `_run_pipeline`: each timestamped
chapter becomes a `Chapter` with its real-timeline duration, taking
`line_start`/`line_end` from the original chapter at the same position
(0 when the original list is shorter); applied only when both lists are
non-empty. -/
def rewriteChapters (orig : List Chapter) (ts : List TimestampedChapter) : List Chapter :=
  if ts ≠ [] ∧ orig ≠ [] then
    ts.enum.map fun ic =>
      { id := ic.2.id
        title := ic.2.title
        estimated_duration_sec := pyInt (ic.2.end_sec - ic.2.start_sec)
        line_start := ((orig.get? ic.1).map (fun c => c.line_start)).getD 0
        line_end := ((orig.get? ic.1).map (fun c => c.line_end)).getD 0 }
  else orig

/-- routers/generate.py `_run_pipeline`, threading the job's registry
entry through the stages; any stage exception lands in the `except`
handler, which sets ERROR / progress 0 / the "Error: ..." message and
touches nothing else in the entry. -/
def runPipeline (env : PipelineEnv) (job_id : String) (entry0 : JobStatusResponse) :
    JobStatusResponse :=
  let e1 := updateEntry entry0 .parsing 5 "Parsing PDF..."
  match env.parseResult with
  | .error m => updateEntry e1 .error 0 ("Error: " ++ m)
  | .ok doc =>
    let e2 := updateEntry e1 .parsing 15
      ("Parsed " ++ toString doc.total_pages ++ " pages, " ++
        toString doc.sections.length ++ " sections.")
    if env.google_api_key = "" then
      updateEntry e2 .error 0 ("Error: No GOOGLE_API_KEY set in .env file.")
    else
      let e3 := updateEntry e2 .scripting 20 "Generating podcast script with Gemini..."
      match env.scriptResult with
      | .error m => updateEntry e3 .error 0 ("Error: " ++ m)
      | .ok script =>
        let e4 := { e3 with script := some script }
        let e5 := updateEntry e4 .scripting 50
          ("Script ready: " ++ toString script.dialogue.length ++ " lines, " ++
            toString script.chapters.length ++ " chapters.")
        let e6 := updateEntry e5 .synthesising 55 "Synthesising voices with ElevenLabs..."
        match env.synthResult with
        | .error m => updateEntry e6 .error 0 ("Error: " ++ m)
        | .ok synthesised =>
          let e7 := updateEntry e6 .synthesising 80
            ("Synthesis complete: " ++ toString synthesised.length ++ " segments.")
          let e8 := updateEntry e7 .mixing 80 "Mixing final audio..."
          match env.mixExport with
          | .error m => updateEntry e8 .error 0 ("Error: " ++ m)
          | .ok _ =>
            let mix := mix_podcast synthesised
            let ts_chapters := mix.ts_chapters
            let duration_sec : ℚ := (ts_chapters.map (fun ch => ch.end_sec - ch.start_sec)).sum
            let result : PodcastAudio :=
              { job_id := job_id
                audio_url := "/api/podcast/" ++ job_id ++ "/audio"
                vtt_url := "/api/podcast/" ++ job_id ++ "/captions"
                duration_sec := pyRound2 duration_sec
                chapters := ts_chapters }
            let script2 := { script with chapters := rewriteChapters script.chapters ts_chapters }
            let e9 := { e8 with result := some result, script := some script2 }
            updateEntry e9 .done 100 "Podcast ready!"

/-- Description of the exception raised by the first failing stage of a
run (None when every stage succeeds). -/
def pipelineFailure (env : PipelineEnv) : Option String :=
  match env.parseResult with
  | .error m => some m
  | .ok _ =>
    if env.google_api_key = "" then some "No GOOGLE_API_KEY set in .env file."
    else
      match env.scriptResult with
      | .error m => some m
      | .ok _ =>
        match env.synthResult with
        | .error m => some m
        | .ok _ =>
          match env.mixExport with
          | .error m => some m
          | .ok _ => none

/-- The script stored in the job entry at the moment the first failing
stage raises: the freshly generated script if SCRIPTING completed, else
whatever the entry already held. -/
def scriptAtFailure (env : PipelineEnv) (entry0 : JobStatusResponse) : Option PodcastScript :=
  match env.parseResult with
  | .error _ => entry0.script
  | .ok _ =>
    if env.google_api_key = "" then entry0.script
    else
      match env.scriptResult with
      | .error _ => entry0.script
      | .ok script => some script

/-- Result of routers/generate.py `start_generation` for one job id:
either an HTTP error status, or the returned `JobStatusResponse` together
with the new store entry for the id and, when a background pipeline run
was scheduled, the voice pair passed to it. -/
inductive StartResult where
  | httpError (status : Nat) (detail : String)
  | ok (response : JobStatusResponse) (store : Option JobStatusResponse)
      (started : Option String)
deriving Repr

/-- routers/generate.py `start_generation`: 404 when the uploaded PDF is
missing; return the stored entry unchanged (no new run) when one exists
with a non-ERROR status; otherwise create a fresh PENDING entry, store
it, and schedule `_run_pipeline` with the voice pair from the meta file
(defaulting to "FM"). -/
def start_generation (job_id : String) (pdfExists : Bool) (metaVoicePair : Option String)
    (store : Option JobStatusResponse) : StartResult :=
  if !pdfExists then .httpError 404 "Upload a PDF first."
  else
    let freshStart : StartResult :=
      let voice_pair := metaVoicePair.getD "FM"
      let job : JobStatusResponse :=
        { job_id := job_id
          status := .pending
          progress_pct := 0
          message := "Generation queued..."
          result := none
          script := none }
      .ok job (some job) (some voice_pair)
    match store with
    | some e => if e.status ≠ JobStatus.error then .ok e store none else freshStart
    | none => freshStart

/-! ## Quiz endpoint (routers/podcast.py) -/

/-- routers/podcast.py `submit_quiz` for one job id: 404 when the job or
its script is missing; otherwise score the answers against the stored
questions pairwise (`zip` truncates to the shorter list), add the score
to the per-job `_USER_SCORE` accumulator, and return the `QuizResult`.
Returns the result together with the updated accumulator value. -/
def submit_quiz (store : Option JobStatusResponse) (userScore : Int) (answers : List Int) :
    Except Nat (QuizResult × Int) :=
  match store with
  | none => .error 404
  | some job =>
    match job.script with
    | none => .error 404
    | some script =>
      let questions := script.quiz_questions
      let score : Int :=
        ((questions.zip answers).filter (fun qa => qa.2 == qa.1.correct_index)).length
      .ok ({ score := score
             total := questions.length
             points_earned := score
             feedback := [] }, userScore + score)

/-! ## Chapter outline sub-stage (services/script_generator.py `_generate_chapters`) -/

/-- JSON values, as produced by `json.loads` on the provider's response
(numbers restricted to integers, which covers chapter ids). -/
inductive Json where
  | null
  | bool (b : Bool)
  | num (n : Int)
  | str (s : String)
  | arr (xs : List Json)
  | obj (fields : List (String × Json))

/-- Lookup of a key in a JSON object's field list (first match, as in a
Python dict where keys are unique). -/
def jsonGet (fields : List (String × Json)) (key : String) : Option Json :=
  (fields.find? (fun p => p.1 == key)).map (fun p => p.2)

/-- Python dict assignment `d[k] = v`: replace the value of an existing
key in place, else append the new binding. -/
def objSet (fields : List (String × Json)) (key : String) (v : Json) :
    List (String × Json) :=
  if fields.any (fun p => p.1 == key) then
    fields.map (fun p => if p.1 == key then (key, v) else p)
  else fields ++ [(key, v)]

/-- Python `data.get(key, default)`: only dicts have `.get`; any other
value raises `AttributeError`. -/
def pyGet (data : Json) (key : String) (d : Json) : Except String Json :=
  match data with
  | .obj fields => .ok ((jsonGet fields key).getD d)
  | _ => .error "AttributeError: object has no attribute get"

/-- Python truthiness of a JSON value (`if not chapters`). -/
def jsonTruthy : Json → Bool
  | .null => false
  | .bool b => b
  | .num n => n != 0
  | .str s => s != ""
  | .arr xs => !xs.isEmpty
  | .obj fields => !fields.isEmpty

/-- The renumbering loop `for i, ch in enumerate(chapters): ch["id"] = i+1`
over the elements of a JSON array, starting at index `i`: every element
must be a dict, otherwise item assignment raises `TypeError`. -/
def renumberList (i : Nat) : List Json → Except String (List Json)
  | [] => .ok []
  | .obj fields :: rest =>
      (renumberList (i + 1) rest).map
        (fun tail => .obj (objSet fields "id" (.num (Int.ofNat (i + 1)))) :: tail)
  | _ :: _ => .error "TypeError: item does not support item assignment"

/-- The renumbering loop applied to the `chapters` value: iterating a
list visits its elements; iterating a string visits its characters and a
dict its keys (both raise `TypeError` on `ch[\x22id\x22] = i+1` unless empty,
in which case the loop body never runs); other values are not
iterable. -/
def renumber : Json → Except String Json
  | .arr xs => (renumberList 0 xs).map .arr
  | .str s => if s = "" then .ok (.str s) else .error "TypeError: item assignment on str"
  | .obj fields =>
      if fields.isEmpty then .ok (.obj fields)
      else .error "TypeError: item assignment on str"
  | _ => .error "TypeError: object is not iterable"

/-- The fixed 3-chapter fallback skeleton of `_generate_chapters`. -/
def fallbackChapters : List Json :=
  [.obj [("id", .num 1), ("title", .str "Introduction"),
         ("hook", .str "What makes this paper special?"),
         ("concepts", .arr [.str "overview"])],
   .obj [("id", .num 2), ("title", .str "Core Concepts"),
         ("hook", .str "Here is the key idea explained"),
         ("concepts", .arr [.str "methodology"])],
   .obj [("id", .num 3), ("title", .str "Key Takeaways"),
         ("hook", .str "What should you remember from this?"),
         ("concepts", .arr [.str "results"])]]

/-- services/script_generator.py `_generate_chapters` after the `_ask`
call: `parsed` is the result of `json.loads` on the fence-stripped
response (`none` when parsing failed, in which case `_safe_json` returns
the stage default `{"chapters": []}`).  Then `data.get("chapters", [])`,
the renumbering loop, and the empty-chapters fallback. -/
def generate_chapters (parsed : Option Json) : Except String Json :=
  let data := parsed.getD (.obj [("chapters", .arr [])])
  match pyGet data "chapters" (.arr []) with
  | .error m => .error m
  | .ok chapters0 =>
    match renumber chapters0 with
    | .error m => .error m
    | .ok chapters =>
      if jsonTruthy chapters then .ok chapters else .ok (.arr fallbackChapters)

/-- Executable discriminator for `Except` success. -/
def exceptIsOk : Except ε α → Bool
  | .ok _ => true
  | .error _ => false

/-- Concrete parsed document for witnesses. -/
def docW : ParsedDocument :=
  { job_id := "j1", filename := "p.pdf", total_pages := 3, word_count := 10,
    sections := [], raw_text := "t", metadata := [] }

/-- Concrete generated script for witnesses. -/
def scriptW : PodcastScript :=
  { job_id := "j1", paper_title := "T", paper_authors := "A",
    total_estimated_duration_sec := 4,
    chapters := [{ id := 1, title := "Intro", estimated_duration_sec := 4,
                   line_start := 0, line_end := 0 }],
    dialogue := [{ host := "A", text := "Hello there", chapter_id := some 1 }],
    study_guide := "notes", quiz_questions := [] }

/-- Pipeline environment whose synthesis stage raises. -/
def envSynthFail : PipelineEnv :=
  { parseResult := .ok docW, google_api_key := "k", scriptResult := .ok scriptW,
    synthResult := .error "ElevenLabs returned 500: boom", mixExport := .ok () }

/-- Job entry as created by `start_generation`. -/
def entryW : JobStatusResponse :=
  { job_id := "j1", status := .pending, progress_pct := 0,
    message := "Generation queued...", result := none, script := none }

/-- Job entry in ERROR state, for the C4 witness. -/
def entryErrW : JobStatusResponse :=
  { job_id := "j1", status := .error, progress_pct := 0,
    message := "Error: boom", result := none, script := none }

/-- Concrete synthesis output for the C6 witness. -/
def linesMixW : List SynthesisedLine :=
  [{ host := "A", text := "hi", audio := 1000, duration_ms := 1000, chapter_id := none,
     synthetic := true },
   { host := "B", text := "yo", audio := 2000, duration_ms := 2000, chapter_id := some 1,
     synthetic := true }]

/-- Pipeline environment for the C7 witness: every stage succeeds. -/
def envOkW : PipelineEnv :=
  { parseResult := .ok docW, google_api_key := "k", scriptResult := .ok scriptW,
    synthResult := .ok linesMixW, mixExport := .ok () }

/-- Provider chapter objects for the C8 witness, with out-of-order ids. -/
def gssW8 : List (List (String × Json)) :=
  [[("id", Json.num 7), ("title", Json.str "A")], []]

/-- Provider response object for the C8 witness. -/
def fieldsW8 : List (String × Json) :=
  [("chapters", Json.arr (gssW8.map Json.obj))]

/-- Quiz question whose correct option is index 1, for the C9 witness. -/
def quizQW : QuizQuestion :=
  { question := "What number is one?", options := ["0", "1", "2", "3"],
    correct_index := 1, explanation := "Because one is one." }

/-- Script with a single quiz question whose correct option is index 1,
for the C9 witness. -/
def scriptQuizW : PodcastScript :=
  { scriptW with quiz_questions := [quizQW] }

/-- Job entry holding `scriptQuizW`, for the C9 witness. -/
def jobQuizW : JobStatusResponse :=
  { job_id := "j1", status := .done, progress_pct := 100, message := "ready",
    result := none, script := some scriptQuizW }

/-- Settings with an ElevenLabs key configured, for the C10 witness. -/
def settingsKeyW : Settings := { elevenlabs_api_key := "x" }

/-- Provider oracle returning 777 ms of audio for every call, for the C10
witness. -/
def providerW : String → String → Except String Nat := fun _ _ => .ok 777

/-- Script whose dialogue exercises the "A", fallback and skipped-line
paths, for the C10 witness. -/
def scriptRolesW : PodcastScript :=
  { scriptW with
    dialogue := [{ host := "a", text := "hi", chapter_id := some 1 },
                 { host := "B", text := "  ", chapter_id := none },
                 { host := "c", text := "yo", chapter_id := none }] }

/-- Expected synthesis output for `scriptRolesW`, for the C10 witness. -/
def linesRolesW : List SynthesisedLine :=
  [{ host := "A", text := "hi", audio := 777, duration_ms := 777, chapter_id := some 1,
     synthetic := false },
   { host := "C", text := "yo", audio := 777, duration_ms := 777, chapter_id := none,
     synthetic := false }]

/-- Expected provider-call trace for `scriptRolesW` (both calls use the
FM pairing's first voice: role "A" maps there, role "C" falls back). -/
def traceRolesW : List (String × String) :=
  [("EXAVITQu4vr4xnSDxMaL", "hi"), ("EXAVITQu4vr4xnSDxMaL", "yo")]

/-! ## Theorems -/

/-! ## C1: chapter ranges partition the dialogue sequence -/

theorem build_chapters_length (cds : List ChapterData) (lines : List DialogueLine) :
    (build_chapters cds lines).length = cds.length := by
  simp [build_chapters, List.enum_length]

theorem findIdx_flatten_grouped
    (p : DialogueLine → Bool) (groups : List (List DialogueLine)) (i : Nat)
    (hi : i < groups.length)
    (hpre : ∀ j (hj : j < i), ∀ l ∈ groups.get ⟨j, lt_trans hj hi⟩, p l = false)
    (hhead : ∀ l ∈ (groups.get ⟨i, hi⟩).head?, p l = true)
    (hne : groups.get ⟨i, hi⟩ ≠ []) :
    groups.flatten.findIdx p = groupOffset groups i := by
  induction i generalizing groups with
  | zero =>
    match groups, hi, hhead, hne with
    | g :: rest, _, hhead, hne =>
      simp only [List.get] at hhead hne
      match g, hhead, hne with
      | l :: t, hhead, _ =>
        have hl : p l = true := hhead l (by simp)
        simp [groupOffset, List.findIdx_cons, hl]
  | succ i ih =>
    match groups, hi, hpre, hhead, hne with
    | g :: rest, hi, hpre, hhead, hne =>
      have hg : ∀ l ∈ g, p l = false := by
        intro l hl
        exact hpre 0 (Nat.succ_pos i) l hl
      have hfg : g.findIdx p = g.length := List.findIdx_eq_length.mpr hg
      have hrest :
          rest.flatten.findIdx p = groupOffset rest i := by
        refine ih rest (Nat.lt_of_succ_lt_succ hi) ?_ ?_ ?_
        · intro j hj l hl
          exact hpre (j + 1) (Nat.succ_lt_succ hj) l hl
        · exact hhead
        · exact hne
      simp only [List.flatten_cons, List.findIdx_append, hfg, lt_irrefl, if_false]
      simp [groupOffset, List.take_succ_cons, hrest, Nat.add_comm]

theorem groupOffset_succ (groups : List (List DialogueLine)) (i : Nat)
    (hi : i < groups.length) :
    groupOffset groups (i + 1) = groupOffset groups i + (groups.get ⟨i, hi⟩).length := by
  unfold groupOffset
  rw [List.take_succ, List.getElem?_eq_getElem hi, List.map_append, List.sum_append]
  simp

theorem groupOffset_le_flatten_length (groups : List (List DialogueLine)) (i : Nat) :
    groupOffset groups i ≤ groups.flatten.length := by
  rw [List.length_flatten]
  exact List.Sublist.sum_le_sum ((List.take_sublist i groups).map List.length)
    (fun a _ => Nat.zero_le a)

theorem groupOffset_lt_flatten_length (groups : List (List DialogueLine)) (i : Nat)
    (hi : i < groups.length) (hne : groups.get ⟨i, hi⟩ ≠ []) :
    groupOffset groups i < groups.flatten.length := by
  have h1 := groupOffset_succ groups i hi
  have h2 := groupOffset_le_flatten_length groups (i + 1)
  have h3 : 0 < (groups.get ⟨i, hi⟩).length := List.length_pos.mpr hne
  omega

theorem firstIdxOr_flatten_grouped
    (p : DialogueLine → Bool) (groups : List (List DialogueLine)) (i : Nat)
    (hi : i < groups.length)
    (hpre : ∀ j (hj : j < i), ∀ l ∈ groups.get ⟨j, lt_trans hj hi⟩, p l = false)
    (hhead : ∀ l ∈ (groups.get ⟨i, hi⟩).head?, p l = true)
    (hne : groups.get ⟨i, hi⟩ ≠ []) (d : Nat) :
    firstIdxOr p groups.flatten d = groupOffset groups i := by
  have h1 := findIdx_flatten_grouped p groups i hi hpre hhead hne
  have h2 := groupOffset_lt_flatten_length groups i hi hne
  unfold firstIdxOr
  simp only [h1]
  rw [if_pos h2]

/-- Bundle of facts about one chapter block extracted from the zipped
per-chapter hypothesis. -/
theorem grouped_facts (cds : List ChapterData) (groups : List (List DialogueLine))
    (hlen : groups.length = cds.length)
    (hgrp : (cds.zip groups).all
      (fun pr => !pr.2.isEmpty && pr.2.all (fun l => l.chapter_id == some pr.1.id)) = true)
    (i : Nat) (hi : i < groups.length) (hi' : i < cds.length) :
    groups.get ⟨i, hi⟩ ≠ [] ∧
    ∀ l ∈ groups.get ⟨i, hi⟩, l.chapter_id = some ((cds.get ⟨i, hi'⟩).id) := by
  have hzlen : i < (cds.zip groups).length := by
    rw [List.length_zip]
    omega
  have hmem : (cds.get ⟨i, hi'⟩, groups.get ⟨i, hi⟩) ∈ cds.zip groups := by
    have h1 : (cds.zip groups)[i] = (cds[i], groups[i]) := List.getElem_zip
    have h2 := List.getElem_mem hzlen
    rw [h1] at h2
    simpa [List.get_eq_getElem] using h2
  have hall := List.all_eq_true.mp hgrp _ hmem
  rw [Bool.and_eq_true] at hall
  obtain ⟨hne, htag⟩ := hall
  constructor
  · simpa using hne
  · intro l hl
    have := List.all_eq_true.mp htag l hl
    simpa using this

/-- Distinct chapter ids at distinct indices, from `Nodup` of the id list. -/
theorem chapter_ids_ne (cds : List ChapterData)
    (hnodup : (cds.map (fun c => c.id)).Nodup)
    (j : Nat) (hj : j < cds.length) (i : Nat) (hi : i < cds.length) (hne : j ≠ i) :
    (cds.get ⟨j, hj⟩).id ≠ (cds.get ⟨i, hi⟩).id := by
  intro heq
  have hinj := List.nodup_iff_injective_get.mp hnodup
  have hjm : j < (cds.map (fun c => c.id)).length := by simpa using hj
  have him : i < (cds.map (fun c => c.id)).length := by simpa using hi
  have : (cds.map (fun c => c.id)).get ⟨j, hjm⟩ = (cds.map (fun c => c.id)).get ⟨i, him⟩ := by
    simpa using heq
  have := hinj this
  exact hne (by simpa [Fin.ext_iff] using this)

theorem build_chapters_getElem (cds : List ChapterData) (lines : List DialogueLine)
    (i : Nat) (hi : i < cds.length)
    (h : i < (build_chapters cds lines).length) :
    (build_chapters cds lines).get ⟨i, h⟩ = buildChapter cds lines i (cds.get ⟨i, hi⟩) := by
  simp [build_chapters, List.getElem_map, List.getElem_enum]

theorem build_chapters_start_end
    (cds : List ChapterData) (groups : List (List DialogueLine))
    (hlen : groups.length = cds.length)
    (hnodup : (cds.map (fun c => c.id)).Nodup)
    (hgrp : (cds.zip groups).all
      (fun pr => !pr.2.isEmpty && pr.2.all (fun l => l.chapter_id == some pr.1.id)) = true)
    (i : Nat) (hi : i < cds.length)
    (hch : i < (build_chapters cds groups.flatten).length) :
    ((build_chapters cds groups.flatten).get ⟨i, hch⟩).line_start = (groupOffset groups i : Int) ∧
    ((build_chapters cds groups.flatten).get ⟨i, hch⟩).line_end =
      (if i + 1 < cds.length then (groupOffset groups (i + 1) : Int) - 1
       else (groups.flatten.length : Int) - 1) := by
  have hgi : i < groups.length := by omega
  have hgf := grouped_facts cds groups hlen hgrp
  have hstart : ∀ k (hk : k < cds.length) (hgk : k < groups.length) (d : Nat),
      (∀ j (hj : j < k), ∀ l ∈ groups.get ⟨j, lt_trans hj hgk⟩,
        (l.chapter_id == some ((cds.get ⟨k, hk⟩).id)) = false) →
      firstIdxOr (fun l => l.chapter_id == some ((cds.get ⟨k, hk⟩).id)) groups.flatten d =
        groupOffset groups k := by
    intro k hk hgk d hpre
    refine firstIdxOr_flatten_grouped _ groups k hgk hpre ?_ ?_ d
    · intro l hl
      have hne := (hgf k hgk hk).1
      have hhd : l ∈ groups.get ⟨k, hgk⟩ := by
        have := List.head?_eq_head hne
        rw [this] at hl
        simp at hl
        subst hl
        exact List.head_mem hne
      have := (hgf k hgk hk).2 l hhd
      simp [this]
    · exact (hgf k hgk hk).1
  have hpre_of_lt : ∀ k (hk : k < cds.length) (hgk : k < groups.length),
      ∀ j (hj : j < k), ∀ l ∈ groups.get ⟨j, lt_trans hj hgk⟩,
        (l.chapter_id == some ((cds.get ⟨k, hk⟩).id)) = false := by
    intro k hk hgk j hj l hl
    have hjc : j < cds.length := by omega
    have hjg : j < groups.length := by omega
    have htag := (hgf j hjg hjc).2 l (by exact hl)
    have hne := chapter_ids_ne cds hnodup j hjc k hk (Nat.ne_of_lt hj)
    have hne' : cds[j].id ≠ cds[k].id := by simpa [List.get_eq_getElem] using hne
    simp only [htag, List.get_eq_getElem]
    simp [hne']
  have hs := hstart i hi hgi 0 (hpre_of_lt i hi hgi)
  rw [build_chapters_getElem cds groups.flatten i hi hch]
  unfold buildChapter
  by_cases hnext : i + 1 < cds.length
  · have hq : cds.get? (i + 1) = some (cds.get ⟨i + 1, hnext⟩) := by
      simp [List.get?_eq_getElem?, List.getElem?_eq_getElem hnext]
    have hs2 := hstart (i + 1) hnext (by omega) groups.flatten.length
      (hpre_of_lt (i + 1) hnext (by omega))
    have hmono : groupOffset groups i < groupOffset groups (i + 1) := by
      have h1 := groupOffset_succ groups i hgi
      have h2 : 0 < (groups.get ⟨i, hgi⟩).length :=
        List.length_pos.mpr (hgf i hgi hi).1
      omega
    simp only [hq, Option.map_some', hs, hs2, if_pos hnext]
    refine ⟨trivial, ?_⟩
    rw [max_eq_left (by omega)]
  · have hq : cds.get? (i + 1) = none := by
      simp [List.get?_eq_getElem?, List.getElem?_eq_none]
      omega
    have hlt := groupOffset_lt_flatten_length groups i hgi (hgf i hgi hi).1
    simp only [hq, Option.map_none', hs, if_neg hnext]
    refine ⟨trivial, ?_⟩
    rw [max_eq_left (by omega)]

theorem chaptersContiguous_iff_chain (chs : List Chapter) :
    chaptersContiguous chs = true ↔
      List.Chain' (fun a b => b.line_start = a.line_end + 1) chs := by
  induction chs with
  | nil => simp [chaptersContiguous]
  | cons a rest ih =>
    cases rest with
    | nil => simp [chaptersContiguous]
    | cons b t =>
      rw [List.chain'_cons]
      rw [← ih]
      simp [chaptersContiguous]

/-- Claim C1 (amended): for chapter lists and dialogue sequences produced
by script assembly in which every chapter received at least one dialogue
line, the chapters' `[line_start, line_end]` ranges partition the dialogue
sequence: the dialogue is the concatenation of per-chapter blocks (in
chapter order, every line of block `i` tagged with chapter `i`'s id, ids
distinct as guaranteed by renumbering), and then `line_start ≤ line_end`
for each chapter, the first chapter starts at 0, consecutive chapters are
contiguous, and the final chapter ends at `length(dialogue) - 1`.  The
unamended claim fails when a chapter has no dialogue lines (see the
counterexample). -/
theorem build_chapters_partition
    (cds : List ChapterData) (groups : List (List DialogueLine))
    (hcds : cds ≠ [])
    (hlen : groups.length = cds.length)
    (hnodup : (cds.map (fun c => c.id)).Nodup)
    (hgrp : (cds.zip groups).all
      (fun pr => !pr.2.isEmpty && pr.2.all (fun l => l.chapter_id == some pr.1.id)) = true) :
    (build_chapters cds groups.flatten).length = cds.length ∧
    (∀ c ∈ build_chapters cds groups.flatten, c.line_start ≤ c.line_end) ∧
    chaptersContiguous (build_chapters cds groups.flatten) = true ∧
    ∀ h : build_chapters cds groups.flatten ≠ [],
      ((build_chapters cds groups.flatten).head h).line_start = 0 ∧
      ((build_chapters cds groups.flatten).getLast h).line_end =
        (groups.flatten.length : Int) - 1 := by
  have hblen := build_chapters_length cds groups.flatten
  have hcpos : 0 < cds.length := List.length_pos.mpr hcds
  have hgf := grouped_facts cds groups hlen hgrp
  have hkey := build_chapters_start_end cds groups hlen hnodup hgrp
  have hmono : ∀ i (hi : i < groups.length),
      groupOffset groups i < groupOffset groups (i + 1) := by
    intro i hi
    have h1 := groupOffset_succ groups i hi
    have h2 : 0 < (groups.get ⟨i, hi⟩).length :=
      List.length_pos.mpr (hgf i hi (by omega)).1
    omega
  refine ⟨hblen, ?_, ?_, ?_⟩
  · intro c hc
    obtain ⟨⟨i, hil⟩, rfl⟩ := List.mem_iff_get.mp hc
    have hi : i < cds.length := by omega
    obtain ⟨hst, hen⟩ := hkey i hi hil
    rw [hst, hen]
    by_cases hnext : i + 1 < cds.length
    · rw [if_pos hnext]
      have := hmono i (by omega)
      omega
    · rw [if_neg hnext]
      have := groupOffset_lt_flatten_length groups i (by omega) (hgf i (by omega) hi).1
      omega
  · rw [chaptersContiguous_iff_chain, List.chain'_iff_get]
    intro i hi
    have hi1 : i < cds.length := by omega
    have hi2 : i + 1 < cds.length := by omega
    obtain ⟨hst1, hen1⟩ := hkey i hi1 (by omega)
    obtain ⟨hst2, _⟩ := hkey (i + 1) hi2 (by omega)
    rw [hst2, hen1, if_pos hi2]
    omega
  · intro h
    constructor
    · have h0 : (0 : Nat) < (build_chapters cds groups.flatten).length := by omega
      have hhead : (build_chapters cds groups.flatten).head h =
          (build_chapters cds groups.flatten).get ⟨0, h0⟩ :=
        List.head_eq_getElem_zero h
      rw [hhead]
      obtain ⟨hst, _⟩ := hkey 0 hcpos h0
      rw [hst]
      simp [groupOffset]
    · have hn1 : cds.length - 1 < (build_chapters cds groups.flatten).length := by omega
      have hlast : (build_chapters cds groups.flatten).getLast h =
          (build_chapters cds groups.flatten).get ⟨cds.length - 1, hn1⟩ := by
        rw [List.getLast_eq_getElem]
        simp [hblen]
      rw [hlast]
      obtain ⟨_, hen⟩ := hkey (cds.length - 1) (by omega) hn1
      rw [hen, if_neg (by omega)]

/-- Claim C1 (counterexample): `_build_chapters` applied to the two
renumbered chapters of `chaptersDataEx` and the dialogue `linesEx` — a
script-assembly outcome in which chapter 2 contributed no valid dialogue
lines — yields ranges `[0,1]` and `[0,1]`: chapter 2's `line_start`
defaults to 0, so the ranges overlap and consecutive chapters are not
contiguous, refuting the unamended partition claim. -/
theorem build_chapters_partition_cex :
    ((build_chapters chaptersDataEx linesEx).map fun c => (c.line_start, c.line_end)) =
      [(0, 1), (0, 1)] ∧
    chaptersContiguous (build_chapters chaptersDataEx linesEx) = false := by
  constructor
  · decide
  · decide

/-- Witness for the amended C1 theorem at a concrete grouped dialogue. -/
theorem build_chapters_partition_witness :
    (chaptersDataEx ≠ [] ∧ groupsEx.length = chaptersDataEx.length ∧
      (chaptersDataEx.map (fun c => c.id)).Nodup ∧
      (chaptersDataEx.zip groupsEx).all
        (fun pr => !pr.2.isEmpty && pr.2.all (fun l => l.chapter_id == some pr.1.id)) = true) ∧
    ((build_chapters chaptersDataEx groupsEx.flatten).length = chaptersDataEx.length ∧
      (∀ c ∈ build_chapters chaptersDataEx groupsEx.flatten, c.line_start ≤ c.line_end) ∧
      chaptersContiguous (build_chapters chaptersDataEx groupsEx.flatten) = true ∧
      ∀ h : build_chapters chaptersDataEx groupsEx.flatten ≠ [],
        ((build_chapters chaptersDataEx groupsEx.flatten).head h).line_start = 0 ∧
        ((build_chapters chaptersDataEx groupsEx.flatten).getLast h).line_end =
          (groupsEx.flatten.length : Int) - 1) :=
  ⟨⟨by decide, by decide, by decide, by decide⟩,
    build_chapters_partition chaptersDataEx groupsEx
      (by decide) (by decide) (by decide) (by decide)⟩

theorem askLoop_replicate_rateLimited (k : Nat) (rest : List CallOutcome) (a : Nat) :
    askLoop (List.replicate k CallOutcome.rateLimited ++ rest) a =
      ((askLoop rest (a + k)).1,
        (List.range k).map (fun i => 60 * (a + i + 1)) ++ (askLoop rest (a + k)).2) := by
  induction k generalizing a with
  | zero => simp [askLoop]
  | succ k ih =>
    rw [List.replicate_succ, List.cons_append]
    show (let r := askLoop (List.replicate k CallOutcome.rateLimited ++ rest) (a + 1)
          ((r.1, 60 * (a + 1) :: r.2) : Except AskError String × List Nat)) = _
    rw [ih (a + 1)]
    have hk : a + 1 + k = a + (k + 1) := by omega
    have hmap : (List.range k).map (fun i => 60 * (a + 1 + i + 1)) =
        (List.range k).map ((fun i => 60 * (a + i + 1)) ∘ Nat.succ) :=
      List.map_congr_left (fun i _ => by simp only [Function.comp_apply]; omega)
    rw [hk, List.range_succ_eq_map, List.map_cons, List.map_map, List.cons_append, hmap]

theorem askError_messages_distinct (m : String) :
    askErrorMessage AskError.rateLimitExhausted ≠
      askErrorMessage (AskError.generationFailed m) := by
  intro h
  have hd : (askErrorMessage AskError.rateLimitExhausted).data =
      ("Gemini generation failed: ".data ++ m.data) := congrArg String.data h
  have h7 := congrArg (fun l => l.get? 7) hd
  have hlt : (7 : Nat) < "Gemini generation failed: ".data.length := by decide
  rw [show (fun l => l.get? 7) ("Gemini generation failed: ".data ++ m.data) =
      ("Gemini generation failed: ".data ++ m.data).get? 7 from rfl,
    List.get?_append hlt] at h7
  simp at h7
  have h7l : (askErrorMessage AskError.rateLimitExhausted).data[7]? = some 'r' := by decide
  rw [h7l] at h7
  simp at h7

/-- Claim C2: `_ask` (default budget of 4 attempts), for every pattern of
failures: after `k` rate-limited attempts it has slept
`60 * 1, ..., 60 * k` seconds (linear backoff with base delay 60 s); a
non-rate-limit failure at the next attempt escalates immediately as a
generation failure carrying the original cause; a success at the next
attempt returns the stripped text; exhausting all 4 attempts on rate
limits escalates the distinct rate-limit-exhausted failure, whose
RuntimeError message also differs from every generic generation-failure
message. -/
theorem ask_retry_policy (k : Nat) (rest : List CallOutcome)
    (hlen : k + rest.length = 4) :
    (∀ m rest2, rest = CallOutcome.otherError m :: rest2 →
      ask (List.replicate k CallOutcome.rateLimited ++ rest) =
        (.error (.generationFailed m), (List.range k).map (fun i => 60 * (i + 1)))) ∧
    (∀ t rest2, rest = CallOutcome.success t :: rest2 →
      ask (List.replicate k CallOutcome.rateLimited ++ rest) =
        (.ok (pyStrip t), (List.range k).map (fun i => 60 * (i + 1)))) ∧
    (rest = [] →
      k = 4 ∧
      ask (List.replicate k CallOutcome.rateLimited ++ rest) =
        (.error .rateLimitExhausted, [60, 120, 180, 240])) ∧
    (∀ m, AskError.rateLimitExhausted ≠ AskError.generationFailed m ∧
      askErrorMessage AskError.rateLimitExhausted ≠
        askErrorMessage (AskError.generationFailed m)) := by
  have hbase := askLoop_replicate_rateLimited k rest 0
  have hmap0 : (List.range k).map (fun i => 60 * ((0 : Nat) + i + 1)) =
      (List.range k).map (fun i => 60 * (i + 1)) :=
    List.map_congr_left (fun i _ => by omega)
  refine ⟨?_, ?_, ?_, ?_⟩
  · intro m rest2 hrest
    subst hrest
    unfold ask
    rw [hbase]
    simp [askLoop, hmap0]
  · intro t rest2 hrest
    subst hrest
    unfold ask
    rw [hbase]
    simp [askLoop, hmap0]
  · intro hrest
    subst hrest
    have hk : k = 4 := by simpa using hlen
    subst hk
    refine ⟨rfl, ?_⟩
    unfold ask
    rw [hbase]
    simp [askLoop]
    decide
  · intro m
    exact ⟨fun h => AskError.noConfusion h, askError_messages_distinct m⟩

/-- Witness for C2 at a concrete failure pattern: two rate-limited
attempts followed by a hard provider failure. -/
theorem ask_retry_policy_witness :
    ((2 : Nat) + [CallOutcome.otherError "boom", CallOutcome.success "ok"].length = 4) ∧
    (∀ m rest2,
      [CallOutcome.otherError "boom", CallOutcome.success "ok"] =
        CallOutcome.otherError m :: rest2 →
      ask (List.replicate 2 CallOutcome.rateLimited ++
          [CallOutcome.otherError "boom", CallOutcome.success "ok"]) =
        (.error (.generationFailed m), (List.range 2).map (fun i => 60 * (i + 1)))) ∧
    (∀ t rest2,
      [CallOutcome.otherError "boom", CallOutcome.success "ok"] =
        CallOutcome.success t :: rest2 →
      ask (List.replicate 2 CallOutcome.rateLimited ++
          [CallOutcome.otherError "boom", CallOutcome.success "ok"]) =
        (.ok (pyStrip t), (List.range 2).map (fun i => 60 * (i + 1)))) ∧
    (([CallOutcome.otherError "boom", CallOutcome.success "ok"] :
        List CallOutcome) = [] →
      (2 : Nat) = 4 ∧
      ask (List.replicate 2 CallOutcome.rateLimited ++
          [CallOutcome.otherError "boom", CallOutcome.success "ok"]) =
        (.error .rateLimitExhausted, [60, 120, 180, 240])) ∧
    (∀ m, AskError.rateLimitExhausted ≠ AskError.generationFailed m ∧
      askErrorMessage AskError.rateLimitExhausted ≠
        askErrorMessage (AskError.generationFailed m)) :=
  ⟨by decide,
    (ask_retry_policy 2 [CallOutcome.otherError "boom", CallOutcome.success "ok"]
      (by decide)).1,
    (ask_retry_policy 2 [CallOutcome.otherError "boom", CallOutcome.success "ok"]
      (by decide)).2.1,
    (ask_retry_policy 2 [CallOutcome.otherError "boom", CallOutcome.success "ok"]
      (by decide)).2.2.1,
    (ask_retry_policy 2 [CallOutcome.otherError "boom", CallOutcome.success "ok"]
      (by decide)).2.2.2⟩

/-! ## C3: any stage exception moves the job to ERROR, keeping the script -/

/-- Claim C3: for every job entry and every environment in which some
pipeline stage raises an exception with description `m`, `_run_pipeline`
leaves the registry entry with status ERROR, progress 0 and the message
"Error: " followed by the exception's description, and the script slot
holds exactly what had been persisted before the failure (the freshly
generated script if SCRIPTING completed, otherwise the entry's previous
script) — partial value is not discarded. -/
theorem pipeline_error_handling (env : PipelineEnv) (job_id : String)
    (entry0 : JobStatusResponse) (m : String)
    (hfail : pipelineFailure env = some m) :
    (runPipeline env job_id entry0).status = JobStatus.error ∧
    (runPipeline env job_id entry0).progress_pct = 0 ∧
    (runPipeline env job_id entry0).message = "Error: " ++ m ∧
    (runPipeline env job_id entry0).script = scriptAtFailure env entry0 := by
  unfold pipelineFailure at hfail
  unfold runPipeline scriptAtFailure
  cases hp : env.parseResult with
  | error pm =>
    rw [hp] at hfail
    simp only [Option.some.injEq] at hfail
    subst hfail
    simp [updateEntry]
  | ok doc =>
    rw [hp] at hfail
    by_cases hkey : env.google_api_key = ""
    · simp only [hkey, if_true, if_pos, Option.some.injEq] at hfail
      subst hfail
      simp [hkey, updateEntry]
    · rw [if_neg hkey] at hfail
      rw [if_neg hkey]
      cases hs : env.scriptResult with
      | error sm =>
        rw [hs] at hfail
        simp only [Option.some.injEq] at hfail
        subst hfail
        simp [updateEntry, hkey]
      | ok script =>
        rw [hs] at hfail
        cases hy : env.synthResult with
        | error ym =>
          rw [hy] at hfail
          simp only [Option.some.injEq] at hfail
          subst hfail
          simp [updateEntry, hkey]
        | ok synthesised =>
          rw [hy] at hfail
          cases hx : env.mixExport with
          | error xm =>
            rw [hx] at hfail
            simp only [Option.some.injEq] at hfail
            subst hfail
            simp [updateEntry, hkey]
          | ok u =>
            rw [hx] at hfail
            exact absurd hfail (by simp)

/-- Witness for C3: a run whose synthesis stage raises after the script
was persisted; the entry keeps the generated script. -/
theorem pipeline_error_handling_witness :
    pipelineFailure envSynthFail = some "ElevenLabs returned 500: boom" ∧
    ((runPipeline envSynthFail "j1" entryW).status = JobStatus.error ∧
      (runPipeline envSynthFail "j1" entryW).progress_pct = 0 ∧
      (runPipeline envSynthFail "j1" entryW).message =
        "Error: " ++ "ElevenLabs returned 500: boom" ∧
      (runPipeline envSynthFail "j1" entryW).script = scriptAtFailure envSynthFail entryW) :=
  ⟨rfl, pipeline_error_handling envSynthFail "j1" entryW "ElevenLabs returned 500: boom" rfl⟩

/-! ## C4: StartGeneration idempotence -/

/-- Claim C4: `start_generation` is idempotent against in-flight and
completed jobs.  When the source PDF is missing the request is rejected
with a client-visible 404 and no pipeline run starts; when a stored entry
exists with status other than ERROR the call returns that entry unchanged,
leaves the store unchanged and schedules no pipeline run; when the stored
entry is in ERROR a fresh PENDING entry is created, stored, and a new
pipeline run is scheduled with the meta file's voice pair. -/
theorem start_generation_idempotent (job_id : String) (meta : Option String)
    (store : Option JobStatusResponse) (e : JobStatusResponse) :
    (start_generation job_id false meta store = .httpError 404 "Upload a PDF first.") ∧
    (store = some e → e.status ≠ JobStatus.error →
      start_generation job_id true meta store = .ok e store none) ∧
    (store = some e → e.status = JobStatus.error →
      ∃ j, start_generation job_id true meta store = .ok j (some j) (some (meta.getD "FM")) ∧
        j.status = JobStatus.pending ∧ j.progress_pct = 0 ∧ j.script = none) := by
  refine ⟨rfl, ?_, ?_⟩
  · intro hstore hne
    subst hstore
    simp [start_generation, hne]
  · intro hstore herr
    subst hstore
    refine ⟨{ job_id := job_id, status := .pending, progress_pct := 0,
              message := "Generation queued...", result := none, script := none },
      ?_, rfl, rfl, rfl⟩
    simp [start_generation, herr]

/-- Witness for C4 at concrete stores: an in-flight entry is returned
unchanged with no new run, and an ERROR entry triggers a fresh run. -/
theorem start_generation_idempotent_witness :
    (start_generation "j1" false (some "MM") (some entryW) =
      .httpError 404 "Upload a PDF first.") ∧
    ((some entryW = some entryW) ∧ entryW.status ≠ JobStatus.error ∧
      start_generation "j1" true (some "MM") (some entryW) =
        .ok entryW (some entryW) none) ∧
    ((some entryErrW = some entryErrW) ∧ entryErrW.status = JobStatus.error ∧
      ∃ j, start_generation "j1" true (some "MM") (some entryErrW) =
        .ok j (some j) (some ((some "MM").getD "FM")) ∧
        j.status = JobStatus.pending ∧ j.progress_pct = 0 ∧ j.script = none) :=
  ⟨(start_generation_idempotent "j1" (some "MM") (some entryW) entryW).1,
    ⟨rfl, by decide,
      (start_generation_idempotent "j1" (some "MM") (some entryW) entryW).2.1 rfl (by decide)⟩,
    ⟨rfl, by decide,
      (start_generation_idempotent "j1" (some "MM") (some entryErrW) entryErrW).2.2 rfl
        (by decide)⟩⟩

/-! ## C5: synthetic fallback audio -/

theorem randint_le (lo hi r : Nat) (h : lo ≤ hi) : randint lo hi r ≤ hi := by
  unfold randint
  have := Nat.mod_lt r (show 0 < hi + 1 - lo by omega)
  omega

theorem randint_ge (lo hi r : Nat) : lo ≤ randint lo hi r := Nat.le_add_right lo _

theorem synthLoop_lower_fuel (stream : Nat → Nat) :
    ∀ fuel ctr total t, total - t ≤ fuel → total ≤ synthLoop stream ctr total t := by
  intro fuel
  induction fuel with
  | zero =>
    intro ctr total t h
    rw [synthLoop]
    have hge : ¬ t < total := by omega
    simp [hge]
    omega
  | succ fuel ih =>
    intro ctr total t h
    rw [synthLoop]
    by_cases hlt : t < total
    · simp only [hlt, if_true]
      apply ih
      have h100 := randint_ge 100 300 (stream (ctr + 1))
      omega
    · simp [hlt]
      omega

theorem synthLoop_upper_fuel (stream : Nat → Nat) :
    ∀ fuel ctr total t, total - t ≤ fuel → t < total + 450 →
      synthLoop stream ctr total t < total + 450 := by
  intro fuel
  induction fuel with
  | zero =>
    intro ctr total t h hub
    rw [synthLoop]
    have hge : ¬ t < total := by omega
    simp [hge]
    omega
  | succ fuel ih =>
    intro ctr total t h hub
    rw [synthLoop]
    by_cases hlt : t < total
    · simp only [hlt, if_true]
      apply ih
      · have h100 := randint_ge 100 300 (stream (ctr + 1))
        omega
      · have hd := randint_le 100 300 (stream (ctr + 1)) (by omega)
        have hg := randint_le 50 150 (stream (ctr + 2)) (by omega)
        omega
    · simp [hlt]
      omega

theorem generate_synthetic_speech_len_bounds (stream : Nat → Nat) (text : String) :
    max 1000 (wordCount text * 150) ≤ generate_synthetic_speech_len stream text ∧
    generate_synthetic_speech_len stream text < max 1000 (wordCount text * 150) + 450 := by
  unfold generate_synthetic_speech_len
  constructor
  · exact synthLoop_lower_fuel stream _ 0 _ 0 le_rfl
  · exact synthLoop_upper_fuel stream _ 0 _ 0 le_rfl (by omega)

theorem synthesiseGo_nokey_total (s : Settings) (hkey : s.elevenlabs_api_key = "")
    (provider : String → String → Except String Nat) (streams : Nat → Nat → Nat)
    (va vb : String) :
    ∀ (dialogue : List DialogueLine) (idx : Nat),
      ∃ ls tr, synthesiseGo s provider streams va vb idx dialogue = .ok (ls, tr) ∧
        ∀ sl ∈ ls, sl.synthetic = true ∧
          max 1000 (wordCount sl.text * 150) ≤ sl.duration_ms ∧
          sl.duration_ms < max 1000 (wordCount sl.text * 150) + 450 := by
  intro dialogue
  induction dialogue with
  | nil =>
    intro idx
    exact ⟨[], [], rfl, by simp⟩
  | cons line rest ih =>
    intro idx
    obtain ⟨ls, tr, hgo, hP⟩ := ih (idx + 1)
    by_cases hempty : pyStrip line.text = ""
    · refine ⟨ls, tr, ?_, hP⟩
      simp [synthesiseGo, hempty, hgo]
    · have htts : tts_with_retry s provider (streams idx)
          (if pyUpper line.host = "A" then va
           else if pyUpper line.host = "B" then vb else va) (pyStrip line.text) =
          .ok (generate_synthetic_speech_len (streams idx) (pyStrip line.text), true) := by
        simp [tts_with_retry, hkey]
      refine ⟨{ host := pyUpper line.host, text := pyStrip line.text,
                audio := generate_synthetic_speech_len (streams idx) (pyStrip line.text),
                duration_ms := generate_synthetic_speech_len (streams idx) (pyStrip line.text),
                chapter_id := line.chapter_id, synthetic := true } :: ls,
        ((if pyUpper line.host = "A" then va
          else if pyUpper line.host = "B" then vb else va), pyStrip line.text) :: tr,
        ?_, ?_⟩
      · simp [synthesiseGo, hempty, htts, hgo]
        rfl
      · intro sl hsl
        rcases List.mem_cons.mp hsl with hhd | htl
        · subst hhd
          refine ⟨rfl, ?_, ?_⟩
          · exact (generate_synthetic_speech_len_bounds (streams idx) (pyStrip line.text)).1
          · exact (generate_synthetic_speech_len_bounds (streams idx) (pyStrip line.text)).2
        · exact hP sl htl

/-- Claim C5: with no speech-provider credential configured, synthesis
always succeeds and every produced `SynthesisedLine` is marked synthetic
with audio duration at least 1000 ms and total length scaled to the
line's word count at 150 ms per word: `max(1000, words*150) ≤ duration <
max(1000, words*150) + 450` (the slack is one tone-plus-gap step of the
generator). -/
theorem synthesis_no_credential_synthetic (s : Settings)
    (provider : String → String → Except String Nat) (streams : Nat → Nat → Nat)
    (script : PodcastScript) (voice_pair : String)
    (hkey : s.elevenlabs_api_key = "") :
    (∃ out, synthesise_script s provider streams script voice_pair = .ok out) ∧
    ∀ ls tr, synthesise_script s provider streams script voice_pair = .ok (ls, tr) →
      ∀ sl ∈ ls, sl.synthetic = true ∧ 1000 ≤ sl.duration_ms ∧
        wordCount sl.text * 150 ≤ sl.duration_ms ∧
        sl.duration_ms < max 1000 (wordCount sl.text * 150) + 450 := by
  unfold synthesise_script
  by_cases hd : script.dialogue = []
  · simp only [hd, if_true, if_pos]
    exact ⟨⟨([], []), rfl⟩, by simp⟩
  · obtain ⟨ls0, tr0, hgo, hP⟩ := synthesiseGo_nokey_total s hkey provider streams
      (s.voice_ids_for_pair voice_pair).1 (s.voice_ids_for_pair voice_pair).2
      script.dialogue 0
    rw [if_neg hd]
    refine ⟨⟨(ls0, tr0), hgo⟩, ?_⟩
    intro ls tr hok sl hsl
    rw [hgo] at hok
    simp only [Except.ok.injEq, Prod.mk.injEq] at hok
    obtain ⟨h1, h2⟩ := hok
    subst h1
    obtain ⟨hsyn, hlo, hhi⟩ := hP sl hsl
    refine ⟨hsyn, ?_, ?_, hhi⟩
    · omega
    · omega

/-- Witness for C5 at the default settings (no ElevenLabs key) and the
concrete script `scriptW`. -/
theorem synthesis_no_credential_synthetic_witness :
    (({} : Settings).elevenlabs_api_key = "") ∧
    ((∃ out, synthesise_script {} (fun _ _ => .error "unused") (fun _ _ => 0) scriptW "FM" =
        .ok out) ∧
      ∀ ls tr,
        synthesise_script {} (fun _ _ => .error "unused") (fun _ _ => 0) scriptW "FM" =
          .ok (ls, tr) →
        ∀ sl ∈ ls, sl.synthetic = true ∧ 1000 ≤ sl.duration_ms ∧
          wordCount sl.text * 150 ≤ sl.duration_ms ∧
          sl.duration_ms < max 1000 (wordCount sl.text * 150) + 450) :=
  ⟨rfl,
    synthesis_no_credential_synthetic {} (fun _ _ => .error "unused") (fun _ _ => 0)
      scriptW "FM" rfl⟩

/-! ## C6: caption cue monotonicity and intro shift -/

theorem speechOffset_zero (L : List SynthesisedLine) : speechOffset L 0 = 0 := rfl

theorem speechOffset_succ_cons (sl : SynthesisedLine) (rest : List SynthesisedLine) (i : Nat) :
    speechOffset (sl :: rest) (i + 1) = sl.audio + 600 + speechOffset rest i := by
  simp [speechOffset, List.take_succ_cons]

theorem mixCuesFrom_length (L : List SynthesisedLine) :
    ∀ acc, (mixCuesFrom acc L).2.length = L.length := by
  induction L with
  | nil => intro acc; rfl
  | cons sl rest ih =>
    intro acc
    simp [mixCuesFrom, ih]

theorem mixCuesFrom_get (L : List SynthesisedLine) :
    ∀ (acc i : Nat) (hi : i < L.length) (hc : i < (mixCuesFrom acc L).2.length),
      (mixCuesFrom acc L).2.get ⟨i, hc⟩ =
        { start_sec := ((acc + speechOffset L i : Nat) : ℚ) / 1000
          end_sec := ((acc + speechOffset L i + (L.get ⟨i, hi⟩).duration_ms : Nat) : ℚ) / 1000
          host := (L.get ⟨i, hi⟩).host
          text := (L.get ⟨i, hi⟩).text } := by
  induction L with
  | nil => intro acc i hi hc; exact absurd hi (by simp)
  | cons sl rest ih =>
    intro acc i hi hc
    cases i with
    | zero =>
      simp [mixCuesFrom, speechOffset_zero]
    | succ i =>
      have hi' : i < rest.length := by simpa using hi
      have hc' : i < (mixCuesFrom (acc + sl.audio + 600) rest).2.length := by
        rw [mixCuesFrom_length]
        exact hi'
      have := ih (acc + sl.audio + 600) i hi' hc'
      simp only [mixCuesFrom, List.get_cons_succ]
      rw [this]
      simp only [speechOffset_succ_cons, List.get_cons_succ]
      congr 2 <;> push_cast <;> ring_nf

theorem write_vtt_get (cues : List CaptionCue) (offset_ms : Nat) (i : Nat)
    (hc : i < cues.length) (hv : i < (write_vtt cues offset_ms).length) :
    (write_vtt cues offset_ms).get ⟨i, hv⟩ =
      ((cues.get ⟨i, hc⟩).start_sec + (offset_ms : ℚ) / 1000,
       (cues.get ⟨i, hc⟩).end_sec + (offset_ms : ℚ) / 1000) := by
  unfold write_vtt
  simp [List.get_eq_getElem, List.getElem_map]

/-- Claim C6: for every mix run (on synthesis output, where each line's
`duration_ms` is the length of its audio), cue windows are within-line
ordered and monotonically non-decreasing across lines — each cue's end
does not exceed the next cue's start — and every timestamp written to the
caption file is exactly the line's start/end offset on the speech
timeline shifted forward by the intro segment's duration (4000 ms, i.e.
4 s). -/
theorem mix_captions_aligned (L : List SynthesisedLine)
    (hdur : ∀ sl ∈ L, sl.duration_ms = sl.audio) :
    (mix_podcast L).cues.length = L.length ∧
    (mix_podcast L).vtt.length = L.length ∧
    (∀ i (hi : i < L.length) (hc : i < (mix_podcast L).cues.length),
      ((mix_podcast L).cues.get ⟨i, hc⟩).start_sec = ((speechOffset L i : Nat) : ℚ) / 1000 ∧
      ((mix_podcast L).cues.get ⟨i, hc⟩).end_sec =
        ((speechOffset L i + (L.get ⟨i, hi⟩).duration_ms : Nat) : ℚ) / 1000) ∧
    (∀ i (hv : i < (mix_podcast L).vtt.length) (hc : i < (mix_podcast L).cues.length),
      ((mix_podcast L).vtt.get ⟨i, hv⟩).1 =
        ((mix_podcast L).cues.get ⟨i, hc⟩).start_sec + (INTRO_MUSIC_MS : ℚ) / 1000 ∧
      ((mix_podcast L).vtt.get ⟨i, hv⟩).2 =
        ((mix_podcast L).cues.get ⟨i, hc⟩).end_sec + (INTRO_MUSIC_MS : ℚ) / 1000) ∧
    (∀ i (hc : i < (mix_podcast L).cues.length),
      ((mix_podcast L).cues.get ⟨i, hc⟩).start_sec ≤
        ((mix_podcast L).cues.get ⟨i, hc⟩).end_sec) ∧
    (∀ i (hc : i < (mix_podcast L).cues.length) (hc2 : i + 1 < (mix_podcast L).cues.length),
      ((mix_podcast L).cues.get ⟨i, hc⟩).end_sec ≤
        ((mix_podcast L).cues.get ⟨i + 1, hc2⟩).start_sec) := by
  have hclen : (mix_podcast L).cues.length = L.length :=
    mixCuesFrom_length L 0
  have hvlen : (mix_podcast L).vtt.length = L.length := by
    show (write_vtt (mixCuesFrom 0 L).2 INTRO_MUSIC_MS).length = L.length
    unfold write_vtt
    rw [List.length_map, mixCuesFrom_length]
  have hget : ∀ i (hi : i < L.length) (hc : i < (mix_podcast L).cues.length),
      (mix_podcast L).cues.get ⟨i, hc⟩ =
        { start_sec := ((speechOffset L i : Nat) : ℚ) / 1000
          end_sec := ((speechOffset L i + (L.get ⟨i, hi⟩).duration_ms : Nat) : ℚ) / 1000
          host := (L.get ⟨i, hi⟩).host
          text := (L.get ⟨i, hi⟩).text } := by
    intro i hi hc
    have h2 : i < (mixCuesFrom 0 L).2.length := by
      rw [mixCuesFrom_length]
      exact hi
    have hm := mixCuesFrom_get L 0 i hi h2
    refine Eq.trans (show (mix_podcast L).cues.get ⟨i, hc⟩ =
      (mixCuesFrom 0 L).2.get ⟨i, h2⟩ from rfl) (hm.trans ?_)
    norm_num
  have hoffsucc : ∀ i (hi : i < L.length),
      speechOffset L (i + 1) = speechOffset L i + ((L.get ⟨i, hi⟩).audio + 600) := by
    intro i hi
    unfold speechOffset
    rw [List.take_succ, List.getElem?_eq_getElem hi, List.map_append, List.sum_append]
    simp
  refine ⟨hclen, hvlen, ?_, ?_, ?_, ?_⟩
  · intro i hi hc
    rw [hget i hi hc]
    exact ⟨rfl, rfl⟩
  · intro i hv hc
    have hv2 : i < (write_vtt (mix_podcast L).cues INTRO_MUSIC_MS).length := hv
    have hcast : (mix_podcast L).vtt.get ⟨i, hv⟩ =
        (((mix_podcast L).cues.get ⟨i, hc⟩).start_sec + (INTRO_MUSIC_MS : ℚ) / 1000,
         ((mix_podcast L).cues.get ⟨i, hc⟩).end_sec + (INTRO_MUSIC_MS : ℚ) / 1000) :=
      write_vtt_get (mix_podcast L).cues INTRO_MUSIC_MS i hc hv2
    exact ⟨congrArg Prod.fst hcast, congrArg Prod.snd hcast⟩
  · intro i hc
    have hi : i < L.length := by omega
    rw [hget i hi hc]
    refine div_le_div_of_nonneg_right ?_ (by norm_num)
    exact_mod_cast Nat.le_add_right _ _
  · intro i hc hc2
    have hi : i < L.length := by omega
    have hi2 : i + 1 < L.length := by omega
    rw [hget i hi hc, hget (i + 1) hi2 hc2]
    have hd := hdur (L.get ⟨i, hi⟩) (List.get_mem L i hi)
    have hoff := hoffsucc i hi
    refine div_le_div_of_nonneg_right ?_ (by norm_num)
    have hle : speechOffset L i + (L.get ⟨i, hi⟩).duration_ms ≤ speechOffset L (i + 1) := by
      omega
    exact_mod_cast hle

/-- Witness for C6 at the concrete synthesis output `linesMixW`. -/
theorem mix_captions_aligned_witness :
    (∀ sl ∈ linesMixW, sl.duration_ms = sl.audio) ∧
    ((mix_podcast linesMixW).cues.length = linesMixW.length ∧
      (mix_podcast linesMixW).vtt.length = linesMixW.length ∧
      (∀ i (hi : i < linesMixW.length) (hc : i < (mix_podcast linesMixW).cues.length),
        ((mix_podcast linesMixW).cues.get ⟨i, hc⟩).start_sec =
          ((speechOffset linesMixW i : Nat) : ℚ) / 1000 ∧
        ((mix_podcast linesMixW).cues.get ⟨i, hc⟩).end_sec =
          ((speechOffset linesMixW i + (linesMixW.get ⟨i, hi⟩).duration_ms : Nat) : ℚ) / 1000) ∧
      (∀ i (hv : i < (mix_podcast linesMixW).vtt.length)
          (hc : i < (mix_podcast linesMixW).cues.length),
        ((mix_podcast linesMixW).vtt.get ⟨i, hv⟩).1 =
          ((mix_podcast linesMixW).cues.get ⟨i, hc⟩).start_sec + (INTRO_MUSIC_MS : ℚ) / 1000 ∧
        ((mix_podcast linesMixW).vtt.get ⟨i, hv⟩).2 =
          ((mix_podcast linesMixW).cues.get ⟨i, hc⟩).end_sec + (INTRO_MUSIC_MS : ℚ) / 1000) ∧
      (∀ i (hc : i < (mix_podcast linesMixW).cues.length),
        ((mix_podcast linesMixW).cues.get ⟨i, hc⟩).start_sec ≤
          ((mix_podcast linesMixW).cues.get ⟨i, hc⟩).end_sec) ∧
      (∀ i (hc : i < (mix_podcast linesMixW).cues.length)
          (hc2 : i + 1 < (mix_podcast linesMixW).cues.length),
        ((mix_podcast linesMixW).cues.get ⟨i, hc⟩).end_sec ≤
          ((mix_podcast linesMixW).cues.get ⟨i + 1, hc2⟩).start_sec)) :=
  ⟨by decide, mix_captions_aligned linesMixW (by decide)⟩

/-! ## C7: success path rewrites chapters with real timestamps -/

theorem rewriteChapters_spec (orig : List Chapter) (ts : List TimestampedChapter)
    (hts : ts ≠ []) (horig : orig ≠ []) :
    (rewriteChapters orig ts).length = ts.length ∧
    ∀ i (h : i < (rewriteChapters orig ts).length),
      ∃ h3 : i < ts.length,
        ((rewriteChapters orig ts).get ⟨i, h⟩).estimated_duration_sec =
          pyInt ((ts.get ⟨i, h3⟩).end_sec - (ts.get ⟨i, h3⟩).start_sec) ∧
        ∀ h2 : i < orig.length,
          ((rewriteChapters orig ts).get ⟨i, h⟩).line_start =
            (orig.get ⟨i, h2⟩).line_start ∧
          ((rewriteChapters orig ts).get ⟨i, h⟩).line_end =
            (orig.get ⟨i, h2⟩).line_end := by
  have hcond : ts ≠ [] ∧ orig ≠ [] := ⟨hts, horig⟩
  constructor
  · unfold rewriteChapters
    rw [if_pos hcond]
    simp [List.enum_length]
  · intro i h
    have hlen : (rewriteChapters orig ts).length = ts.length := by
      unfold rewriteChapters
      rw [if_pos hcond]
      simp [List.enum_length]
    have h3 : i < ts.length := by omega
    refine ⟨h3, ?_⟩
    have hel : (rewriteChapters orig ts).get ⟨i, h⟩ =
        { id := (ts.get ⟨i, h3⟩).id
          title := (ts.get ⟨i, h3⟩).title
          estimated_duration_sec :=
            pyInt ((ts.get ⟨i, h3⟩).end_sec - (ts.get ⟨i, h3⟩).start_sec)
          line_start := ((orig.get? i).map (fun c => c.line_start)).getD 0
          line_end := ((orig.get? i).map (fun c => c.line_end)).getD 0 } := by
      unfold rewriteChapters
      simp only [if_pos hcond, List.get_eq_getElem, List.getElem_map, List.getElem_enum]
    rw [hel]
    refine ⟨rfl, ?_⟩
    intro h2
    have hq : orig[i]? = some orig[i] := List.getElem?_eq_getElem h2
    simp [hq, List.get_eq_getElem]

/-- Claim C7: on successful completion, the job's status becomes DONE at
progress 100, and every chapter of the persisted (rewritten) script
carries a real duration from the final mixed timeline —
`int(end_sec - start_sec)` of the timestamped chapter at the same
position — while its `line_start`/`line_end` are taken from the pre-mix
chapter at the same position; when the pre-mix script had chapters the
rewritten list is non-empty. -/
theorem pipeline_success_chapters (env : PipelineEnv) (job_id : String)
    (entry0 : JobStatusResponse) (script : PodcastScript) (L : List SynthesisedLine)
    (hs : env.scriptResult = .ok script) (hy : env.synthResult = .ok L)
    (hok : pipelineFailure env = none) :
    (runPipeline env job_id entry0).status = JobStatus.done ∧
    (runPipeline env job_id entry0).progress_pct = 100 ∧
    ∃ s2, (runPipeline env job_id entry0).script = some s2 ∧
      s2.chapters = rewriteChapters script.chapters (mix_podcast L).ts_chapters ∧
      (script.chapters ≠ [] → s2.chapters ≠ []) ∧
      ∀ i (h : i < s2.chapters.length),
        ∃ (h2 : i < script.chapters.length)
          (h3 : i < (mix_podcast L).ts_chapters.length),
          (s2.chapters.get ⟨i, h⟩).line_start =
            (script.chapters.get ⟨i, h2⟩).line_start ∧
          (s2.chapters.get ⟨i, h⟩).line_end =
            (script.chapters.get ⟨i, h2⟩).line_end ∧
          (s2.chapters.get ⟨i, h⟩).estimated_duration_sec =
            pyInt (((mix_podcast L).ts_chapters.get ⟨i, h3⟩).end_sec -
              ((mix_podcast L).ts_chapters.get ⟨i, h3⟩).start_sec) := by
  unfold pipelineFailure at hok
  cases hp : env.parseResult with
  | error pm => rw [hp] at hok; exact absurd hok (by simp)
  | ok doc =>
    rw [hp] at hok
    by_cases hkey : env.google_api_key = ""
    · rw [if_pos hkey] at hok
      exact absurd hok (by simp)
    · rw [if_neg hkey] at hok
      rw [hs] at hok
      rw [hy] at hok
      cases hx : env.mixExport with
      | error xm => rw [hx] at hok; exact absurd hok (by simp)
      | ok u =>
        have hrun : runPipeline env job_id entry0 =
            updateEntry
              { updateEntry
                  (updateEntry
                    (updateEntry
                      ({ updateEntry
                          (updateEntry
                            (updateEntry entry0 .parsing 5 "Parsing PDF...") .parsing 15
                            ("Parsed " ++ toString doc.total_pages ++ " pages, " ++
                              toString doc.sections.length ++ " sections."))
                          .scripting 20 "Generating podcast script with Gemini..." with
                          script := some script })
                      .scripting 50
                      ("Script ready: " ++ toString script.dialogue.length ++ " lines, " ++
                        toString script.chapters.length ++ " chapters."))
                    .synthesising 55 "Synthesising voices with ElevenLabs...")
                  .synthesising 80
                  ("Synthesis complete: " ++ toString L.length ++ " segments.")
                  with
                  status := JobStatus.mixing, progress_pct := 80,
                  message := "Mixing final audio...",
                  result := some
                    { job_id := job_id
                      audio_url := "/api/podcast/" ++ job_id ++ "/audio"
                      vtt_url := "/api/podcast/" ++ job_id ++ "/captions"
                      duration_sec := pyRound2
                        (((mix_podcast L).ts_chapters.map
                          (fun ch => ch.end_sec - ch.start_sec)).sum)
                      chapters := (mix_podcast L).ts_chapters }
                  script := some { script with
                    chapters := rewriteChapters script.chapters (mix_podcast L).ts_chapters } }
              .done 100 "Podcast ready!" := by
          unfold runPipeline
          simp only [hp, hs, hy, hx, if_neg hkey]
          rfl
        refine ⟨by rw [hrun]; rfl, by rw [hrun]; rfl, ?_⟩
        refine ⟨{ script with
          chapters := rewriteChapters script.chapters (mix_podcast L).ts_chapters },
          by rw [hrun]; rfl, rfl, ?_, ?_⟩
        · intro hne
          have hts : (mix_podcast L).ts_chapters ≠ [] := by
            simp [mix_podcast]
          have hlen1 :=
            (rewriteChapters_spec script.chapters (mix_podcast L).ts_chapters hts hne).1
          have hts1 : (mix_podcast L).ts_chapters.length = 1 := by
            simp [mix_podcast]
          show rewriteChapters script.chapters (mix_podcast L).ts_chapters ≠ []
          intro hempty
          rw [hempty] at hlen1
          simp [hts1] at hlen1
        · intro i h
          by_cases hne : script.chapters = []
          · exfalso
            have hlen0 : (rewriteChapters script.chapters (mix_podcast L).ts_chapters).length
                = 0 := by
              unfold rewriteChapters
              rw [if_neg (by simp [hne])]
              simp [hne]
            have h2 : i < (rewriteChapters script.chapters
                (mix_podcast L).ts_chapters).length := h
            omega
          · have hts : (mix_podcast L).ts_chapters ≠ [] := by
              simp [mix_podcast]
            obtain ⟨hlen, hspec⟩ :=
              rewriteChapters_spec script.chapters (mix_podcast L).ts_chapters hts hne
            obtain ⟨h3, hdur2, hpos⟩ := hspec i h
            have hts1 : (mix_podcast L).ts_chapters.length = 1 := by
              simp [mix_podcast]
            have h2 : i < script.chapters.length := by
              have : i < 1 := by omega
              have := List.length_pos.mpr hne
              omega
            exact ⟨h2, h3, (hpos h2).1, (hpos h2).2, hdur2⟩

/-- Witness for C7 at a concrete all-stages-succeed run. -/
theorem pipeline_success_chapters_witness :
    (envOkW.scriptResult = .ok scriptW) ∧ (envOkW.synthResult = .ok linesMixW) ∧
    (pipelineFailure envOkW = none) ∧
    ((runPipeline envOkW "j1" entryW).status = JobStatus.done ∧
      (runPipeline envOkW "j1" entryW).progress_pct = 100 ∧
      ∃ s2, (runPipeline envOkW "j1" entryW).script = some s2 ∧
        s2.chapters = rewriteChapters scriptW.chapters (mix_podcast linesMixW).ts_chapters ∧
        (scriptW.chapters ≠ [] → s2.chapters ≠ []) ∧
        ∀ i (h : i < s2.chapters.length),
          ∃ (h2 : i < scriptW.chapters.length)
            (h3 : i < (mix_podcast linesMixW).ts_chapters.length),
            (s2.chapters.get ⟨i, h⟩).line_start =
              (scriptW.chapters.get ⟨i, h2⟩).line_start ∧
            (s2.chapters.get ⟨i, h⟩).line_end =
              (scriptW.chapters.get ⟨i, h2⟩).line_end ∧
            (s2.chapters.get ⟨i, h⟩).estimated_duration_sec =
              pyInt (((mix_podcast linesMixW).ts_chapters.get ⟨i, h3⟩).end_sec -
                ((mix_podcast linesMixW).ts_chapters.get ⟨i, h3⟩).start_sec)) :=
  ⟨rfl, rfl, rfl,
    pipeline_success_chapters envOkW "j1" entryW scriptW linesMixW rfl rfl rfl⟩

/-! ## C8: chapter-outline fallback and renumbering -/

theorem jsonGet_objSet (fields : List (String × Json)) (k : String) (v : Json) :
    jsonGet (objSet fields k v) k = some v := by
  induction fields with
  | nil => simp [objSet, jsonGet]
  | cons a rest ih =>
    by_cases ha : a.1 = k
    · simp [objSet, jsonGet, ha]
    · by_cases hrest : rest.any (fun p => p.1 == k)
      · simp only [objSet, hrest] at ih
        simp [objSet, jsonGet, ha, hrest]
        simp only [jsonGet] at ih
        simpa [jsonGet] using ih
      · simp only [objSet, hrest] at ih
        simp [objSet, jsonGet, ha, hrest]
        simp only [jsonGet] at ih
        simpa [jsonGet] using ih

theorem renumberList_objs (gss : List (List (String × Json))) :
    ∀ i : Nat,
      renumberList i (gss.map Json.obj) =
        .ok ((gss.enumFrom i).map (fun ig =>
          Json.obj (objSet ig.2 "id" (Json.num (Int.ofNat (ig.1 + 1)))))) := by
  induction gss with
  | nil => intro i; rfl
  | cons g rest ih =>
    intro i
    simp only [List.map_cons, renumberList, ih (i + 1), List.enumFrom]
    rfl

/-- Claim C8 (counterexample): the provider response "[1, 2]" parses as
valid JSON whose structure is malformed (a top-level array instead of an
object); `data.get("chapters", [])` then raises `AttributeError`, so the
sub-stage raises instead of returning the 3-chapter skeleton, refuting
the claim for this malformed structure. -/
theorem generate_chapters_cex :
    generate_chapters (some (Json.arr [Json.num 1, Json.num 2])) =
      .error "AttributeError: object has no attribute get" ∧
    exceptIsOk (generate_chapters (some (Json.arr [Json.num 1, Json.num 2]))) = false :=
  ⟨rfl, rfl⟩

/-- Claim C8 (amended): the chapter-outline sub-stage falls back to the
fixed 3-chapter skeleton when the response fails to parse as JSON, or
parses to an object whose "chapters" value is absent or an empty array;
when "chapters" is a non-empty array of objects, the stage succeeds and
every returned chapter's id is renumbered sequentially starting at 1
regardless of the ids the provider supplied (and the skeleton's ids are
likewise 1, 2, 3).  Malformed structures outside these shapes — e.g. a
top-level JSON array — raise instead (see the counterexample). -/
theorem generate_chapters_amended :
    (generate_chapters none = .ok (.arr fallbackChapters)) ∧
    (∀ fields, jsonGet fields "chapters" = none →
      generate_chapters (some (.obj fields)) = .ok (.arr fallbackChapters)) ∧
    (∀ fields, jsonGet fields "chapters" = some (.arr []) →
      generate_chapters (some (.obj fields)) = .ok (.arr fallbackChapters)) ∧
    ((fallbackChapters.map (fun c =>
        match c with
        | .obj fs => jsonGet fs "id"
        | _ => none)) = [some (.num 1), some (.num 2), some (.num 3)]) ∧
    (∀ fields (gss : List (List (String × Json))), gss ≠ [] →
      jsonGet fields "chapters" = some (.arr (gss.map Json.obj)) →
      generate_chapters (some (.obj fields)) =
        .ok (.arr (gss.enum.map (fun ig =>
          Json.obj (objSet ig.2 "id" (Json.num (Int.ofNat (ig.1 + 1))))))) ∧
      ∀ i (hi : i < gss.length),
        jsonGet (objSet (gss.get ⟨i, hi⟩) "id" (Json.num (Int.ofNat (i + 1)))) "id" =
          some (Json.num (Int.ofNat (i + 1)))) := by
  refine ⟨rfl, ?_, ?_, rfl, ?_⟩
  · intro fields hnone
    simp [generate_chapters, pyGet, hnone, renumber, renumberList, jsonTruthy]
    rfl
  · intro fields hempty
    simp [generate_chapters, pyGet, hempty, renumber, renumberList, jsonTruthy]
    rfl
  · intro fields gss hne hchap
    constructor
    · have hren := renumberList_objs gss 0
      simp only [generate_chapters, pyGet, hchap, Option.getD_some, renumber, hren]
      have htr : jsonTruthy (.arr ((gss.enumFrom 0).map (fun ig =>
          Json.obj (objSet ig.2 "id" (Json.num (Int.ofNat (ig.1 + 1))))))) = true := by
        simp [jsonTruthy]
        cases gss with
        | nil => exact absurd rfl hne
        | cons g rest => simp [List.enumFrom]
      simp only [Except.map, htr, if_true, if_pos]
      rfl
    · intro i hi
      exact jsonGet_objSet (gss.get ⟨i, hi⟩) "id" (Json.num (Int.ofNat (i + 1)))

/-- Witness for the amended C8 theorem at concrete inputs. -/
theorem generate_chapters_amended_witness :
    (gssW8 ≠ []) ∧
    (jsonGet fieldsW8 "chapters" = some (.arr (gssW8.map Json.obj))) ∧
    (generate_chapters (some (.obj fieldsW8)) =
        .ok (.arr (gssW8.enum.map (fun ig =>
          Json.obj (objSet ig.2 "id" (Json.num (Int.ofNat (ig.1 + 1))))))) ∧
      ∀ i (hi : i < gssW8.length),
        jsonGet (objSet (gssW8.get ⟨i, hi⟩) "id" (Json.num (Int.ofNat (i + 1)))) "id" =
          some (Json.num (Int.ofNat (i + 1)))) ∧
    (generate_chapters none = .ok (.arr fallbackChapters)) :=
  ⟨List.cons_ne_nil _ _, rfl,
    generate_chapters_amended.2.2.2.2 fieldsW8 gssW8 (List.cons_ne_nil _ _) rfl,
    generate_chapters_amended.1⟩

/-! ## C9: quiz scoring scenario -/

/-- Claim C9: submitting answers `[1]` against a job whose stored script
holds exactly one quiz question with `correct_index == 1` returns a
`QuizResult` with score 1, total 1 and points_earned 1 (and adds the
score to the per-job accumulator). -/
theorem submit_quiz_single_correct (job : JobStatusResponse) (script : PodcastScript)
    (q : QuizQuestion) (userScore : Int)
    (hscript : job.script = some script)
    (hq : script.quiz_questions = [q]) (hci : q.correct_index = 1) :
    submit_quiz (some job) userScore [1] =
      .ok ({ score := 1, total := 1, points_earned := 1, feedback := [] }, userScore + 1) := by
  simp [submit_quiz, hscript, hq, hci]

/-- Witness for C9 at the concrete stored quiz. -/
theorem submit_quiz_single_correct_witness :
    (jobQuizW.script = some scriptQuizW) ∧
    (scriptQuizW.quiz_questions = [quizQW]) ∧
    (quizQW.correct_index = 1) ∧
    submit_quiz (some jobQuizW) 0 [1] =
      .ok ({ score := 1, total := 1, points_earned := 1, feedback := [] }, 0 + 1) :=
  ⟨rfl, rfl, rfl,
    submit_quiz_single_correct jobQuizW scriptQuizW quizQW 0 rfl rfl rfl⟩

/-! ## C10: voice selection from the uppercased host role -/

theorem synthesiseGo_trace (s : Settings) (provider : String → String → Except String Nat)
    (streams : Nat → Nat → Nat) (va vb : String) :
    ∀ (dialogue : List DialogueLine) (idx : Nat) ls tr,
      synthesiseGo s provider streams va vb idx dialogue = .ok (ls, tr) →
      tr = (dialogue.filter (fun l => pyStrip l.text ≠ "")).map (fun l =>
          (if pyUpper l.host = "A" then va
           else if pyUpper l.host = "B" then vb else va, pyStrip l.text)) ∧
      ls.map (fun sl => sl.host) =
        (dialogue.filter (fun l => pyStrip l.text ≠ "")).map (fun l => pyUpper l.host) := by
  intro dialogue
  induction dialogue with
  | nil =>
    intro idx ls tr h
    simp only [synthesiseGo, Except.ok.injEq, Prod.mk.injEq] at h
    obtain ⟨h1, h2⟩ := h
    subst h1
    subst h2
    simp
  | cons line rest ih =>
    intro idx ls tr h
    by_cases hempty : pyStrip line.text = ""
    · simp only [synthesiseGo, hempty, if_true, if_pos] at h
      have := ih (idx + 1) ls tr h
      simpa [hempty] using this
    · rw [show synthesiseGo s provider streams va vb idx (line :: rest) =
          (match tts_with_retry s provider (streams idx)
              (if pyUpper line.host = "A" then va
               else if pyUpper line.host = "B" then vb else va) (pyStrip line.text) with
           | .error m => .error m
           | .ok (audio, synthetic) => do
              let r ← synthesiseGo s provider streams va vb (idx + 1) rest
              .ok ({ host := pyUpper line.host, text := pyStrip line.text, audio := audio,
                     duration_ms := audio, chapter_id := line.chapter_id,
                     synthetic := synthetic } :: r.1,
                   ((if pyUpper line.host = "A" then va
                     else if pyUpper line.host = "B" then vb else va),
                     pyStrip line.text) :: r.2)) from by
            simp [synthesiseGo, hempty]] at h
      cases htts : tts_with_retry s provider (streams idx)
          (if pyUpper line.host = "A" then va
           else if pyUpper line.host = "B" then vb else va) (pyStrip line.text) with
      | error m =>
        rw [htts] at h
        exact absurd h (by simp)
      | ok p =>
        rw [htts] at h
        obtain ⟨audio, synthetic⟩ := p
        cases hrest : synthesiseGo s provider streams va vb (idx + 1) rest with
        | error m =>
          rw [hrest] at h
          exact Except.noConfusion h
        | ok r =>
          obtain ⟨ls0, tr0⟩ := r
          rw [hrest] at h
          simp only [Except.bind, bind, Except.ok.injEq, Prod.mk.injEq] at h
          obtain ⟨h1, h2⟩ := h
          subst h1
          subst h2
          obtain ⟨ih1, ih2⟩ := ih (idx + 1) ls0 tr0 hrest
          constructor
          · simp [hempty, ih1]
          · simp [hempty, ih2]

/-- Claim C10: whenever the synthesis coordinator completes, the provider
calls it made are exactly one per dialogue line with non-empty stripped
text, each using the voice selected from the uppercased host role — "A"
maps to the pairing's first voice, "B" to the second, and any other role
falls back to the first voice rather than failing — and each emitted
`SynthesisedLine` records the uppercased role string. -/
theorem synthesise_voice_mapping (s : Settings)
    (provider : String → String → Except String Nat) (streams : Nat → Nat → Nat)
    (script : PodcastScript) (voice_pair : String)
    (ls : List SynthesisedLine) (tr : List (String × String))
    (h : synthesise_script s provider streams script voice_pair = .ok (ls, tr)) :
    tr = expectedCalls s voice_pair script.dialogue ∧
    ls.map (fun sl => sl.host) =
      (script.dialogue.filter (fun l => pyStrip l.text ≠ "")).map (fun l => pyUpper l.host) := by
  unfold synthesise_script at h
  by_cases hd : script.dialogue = []
  · rw [if_pos hd] at h
    simp only [Except.ok.injEq, Prod.mk.injEq] at h
    obtain ⟨h1, h2⟩ := h
    subst h1
    subst h2
    simp [expectedCalls, hd]
  · rw [if_neg hd] at h
    have := synthesiseGo_trace s provider streams
      (s.voice_ids_for_pair voice_pair).1 (s.voice_ids_for_pair voice_pair).2
      script.dialogue 0 ls tr h
    exact ⟨this.1, this.2⟩

/-- Witness for C10 at a concrete dialogue with roles "a", "B" (blank
text, skipped) and "c" (fallback voice). -/
theorem synthesise_voice_mapping_witness :
    (synthesise_script settingsKeyW providerW (fun _ _ => 0) scriptRolesW "FM" =
      .ok (linesRolesW, traceRolesW)) ∧
    (traceRolesW = expectedCalls settingsKeyW "FM" scriptRolesW.dialogue ∧
      linesRolesW.map (fun sl => sl.host) =
        (scriptRolesW.dialogue.filter (fun l => pyStrip l.text ≠ "")).map
          (fun l => pyUpper l.host)) :=
  ⟨by rfl,
    synthesise_voice_mapping settingsKeyW providerW (fun _ _ => 0) scriptRolesW "FM"
      linesRolesW traceRolesW (by rfl)⟩
